import Mathlib

set_option maxRecDepth 8192

namespace GcpAgent

/-! Shallow embedding of the multi_tool_agent GCP command layer
(`command_executor.py` and `gcp_tool.py`).  Python strings are modelled as
Lean `String` (with most work done on `List Char`), Python `None` for the
tool paths is modelled with `Option String`, and uncaught Python exceptions
are modelled with `Except.error`.  The subprocess boundary, `json.loads`
and `json.dumps` are external to the program and are modelled as oracles
inside a `World` structure; every subprocess attempt is recorded in a
trace so that claims about argument vectors can be stated. -/

/-- ASCII whitespace as recognized by Python `str.split`, `str.strip`
and the regex class backslash-s (space, tab, newline, carriage return,
vertical tab, form feed). -/
def pyIsSpace (c : Char) : Bool :=
  c = ' ' || c = '\t' || c = '\n' || c = '\r' || c = Char.ofNat 11 || c = Char.ofNat 12

/-- ASCII lowercasing of one character, modelling Python `str.lower` on the
ASCII inputs this program works with. -/
def lowerChar (c : Char) : Char :=
  if 'A' ≤ c && c ≤ 'Z' then Char.ofNat (c.toNat + 32) else c

/-- The regex word class backslash-w restricted to ASCII (letters, digits,
underscore). -/
def isWordChar (c : Char) : Bool :=
  ('a' ≤ c && c ≤ 'z') || ('A' ≤ c && c ≤ 'Z') || ('0' ≤ c && c ≤ '9') || c = '_'

/-- Python `str.strip()` on a character list. -/
def stripChars (cs : List Char) : List Char :=
  ((cs.dropWhile pyIsSpace).reverse.dropWhile pyIsSpace).reverse

/-- Python `str.strip()`. -/
def pyStrip (s : String) : String := ⟨stripChars s.data⟩

/-- Python `str.lower()`. -/
def pyLower (s : String) : String := ⟨s.data.map lowerChar⟩

/-- Whether the first list is a prefix of the second (by characters). -/
def isPrefixOfCL : List Char → List Char → Bool
  | [], _ => true
  | _ :: _, [] => false
  | a :: as, b :: bs => a = b && isPrefixOfCL as bs

/-- Python `str.startswith`. -/
def pyStartsWith (s p : String) : Bool := isPrefixOfCL p.data s.data

/-- Python `str.endswith`. -/
def pyEndsWith (s p : String) : Bool := isPrefixOfCL p.data.reverse s.data.reverse

/-- Whether a character occurs in a string (Python `c in s`). -/
def containsChar (s : String) (c : Char) : Bool := s.data.contains c

/-- Whether `needle` occurs as a contiguous sublist of the second list. -/
def containsSubCL (needle : List Char) : List Char → Bool
  | [] => isPrefixOfCL needle []
  | c :: t => isPrefixOfCL needle (c :: t) || containsSubCL needle t

/-- Index of the first occurrence of `needle` in the second list
(Python `str.find`, restricted to the found case). -/
def findSubCL (needle : List Char) : List Char → Option Nat
  | [] => if isPrefixOfCL needle [] then some 0 else none
  | c :: t =>
    if isPrefixOfCL needle (c :: t) then some 0
    else (findSubCL needle t).map (· + 1)

/-- Case-insensitive substring test, modelling `re.search(r'word', s, re.IGNORECASE)`
for a plain-word pattern. -/
def ciHas (s kw : String) : Bool :=
  containsSubCL (kw.data.map lowerChar) (s.data.map lowerChar)

/-- Case-insensitive search for any of several plain words, modelling a regex
alternation such as `list|show|all`. -/
def ciHasAny (s : String) (kws : List String) : Bool := kws.any (ciHas s)

/-- Join strings with a separator (Python `sep.join`). -/
def joinSep (sep : String) : List String → String
  | [] => ""
  | [s] => s
  | s :: t => s ++ sep ++ joinSep sep t

/-- Split a character list at a given character, never dropping empties
(Python `str.split('/')` or `str.split('=')`). -/
def splitOnCharCL (c : Char) : List Char → List (List Char)
  | [] => [[]]
  | a :: t =>
    match splitOnCharCL c t with
    | [] => [[]]
    | g :: gs => if a = c then [] :: g :: gs else (a :: g) :: gs

/-- Last element of a list of strings, with default (used for Python `[-1]`
indexing after a split, which is never empty). -/
def lastStr : List (List Char) → List Char
  | [] => []
  | [g] => g
  | _ :: g :: gs => lastStr (g :: gs)

/-- Python `s.split('/')[-1]`. -/
def splitSlashLast (s : String) : String := ⟨lastStr (splitOnCharCL '/' s.data)⟩

/-- Python `str.split()` with no arguments: split on whitespace runs,
dropping empty fields. -/
def pySplitWsCL : List Char → List (List Char)
  | [] => []
  | c :: t =>
    if pyIsSpace c then pySplitWsCL t
    else
      match pySplitWsCL t with
      | [] => [[c]]
      | g :: gs =>
        match t with
        | [] => [[c]]
        | d :: _ => if pyIsSpace d then [c] :: g :: gs else (c :: g) :: gs

/-- Python `str.split(maxsplit=2)`: at most three fields, the third being the
raw remainder starting at its first non-whitespace character. -/
def pySplitMax2CL (cs : List Char) : List (List Char) :=
  let r0 := cs.dropWhile pyIsSpace
  if r0 = [] then []
  else
    let t1 := r0.takeWhile (fun c => !(pyIsSpace c))
    let r1 := (r0.dropWhile (fun c => !(pyIsSpace c))).dropWhile pyIsSpace
    if r1 = [] then [t1]
    else
      let t2 := r1.takeWhile (fun c => !(pyIsSpace c))
      let r2 := (r1.dropWhile (fun c => !(pyIsSpace c))).dropWhile pyIsSpace
      if r2 = [] then [t1, t2]
      else [t1, t2, r2]

/-! ### shlex.split (POSIX mode, whitespace_split=True, comments off)

State machine translated from the CPython `shlex` module as invoked by
`shlex.split`: single quotes are raw, double quotes honor a backslash
escape of `"` and of the backslash itself, a backslash outside quotes
escapes any next character, and an unterminated quote or trailing escape
raises `ValueError`. -/

def shQuoteMsg : String := "No closing quotation"

def shEscMsg : String := "No escape character"

inductive ShMode where
  | norm
  | esc
  | squote
  | dquote
  | dqesc

/-- One pass of the shlex lexer: input characters, mode, current token,
whether the current token saw a quote (so that empty quoted strings still
produce a token), accumulated tokens. -/
def shlexGo : List Char → ShMode → List Char → Bool → List String →
    Except String (List String)
  | [], .norm, tok, sawQ, acc =>
    .ok (acc ++ if tok ≠ [] || sawQ then [⟨tok⟩] else [])
  | [], .esc, _, _, _ => .error shEscMsg
  | [], .dqesc, _, _, _ => .error shEscMsg
  | [], .squote, _, _, _ => .error shQuoteMsg
  | [], .dquote, _, _, _ => .error shQuoteMsg
  | c :: rest, .norm, tok, sawQ, acc =>
    if pyIsSpace c then
      if tok ≠ [] || sawQ then shlexGo rest .norm [] false (acc ++ [⟨tok⟩])
      else shlexGo rest .norm [] false acc
    else if c = '\\' then shlexGo rest .esc tok sawQ acc
    else if c = Char.ofNat 39 then shlexGo rest .squote tok true acc
    else if c = '"' then shlexGo rest .dquote tok true acc
    else shlexGo rest .norm (tok ++ [c]) sawQ acc
  | c :: rest, .esc, tok, sawQ, acc => shlexGo rest .norm (tok ++ [c]) sawQ acc
  | c :: rest, .squote, tok, sawQ, acc =>
    if c = Char.ofNat 39 then shlexGo rest .norm tok sawQ acc
    else shlexGo rest .squote (tok ++ [c]) sawQ acc
  | c :: rest, .dquote, tok, sawQ, acc =>
    if c = '"' then shlexGo rest .norm tok sawQ acc
    else if c = '\\' then shlexGo rest .dqesc tok sawQ acc
    else shlexGo rest .dquote (tok ++ [c]) sawQ acc
  | c :: rest, .dqesc, tok, sawQ, acc =>
    if c = '"' || c = '\\' then shlexGo rest .dquote (tok ++ [c]) sawQ acc
    else shlexGo rest .dquote (tok ++ ['\\', c]) sawQ acc

/-- Python `shlex.split(s)`; a raised `ValueError` is modelled as `.error`. -/
def shlexSplit (s : String) : Except String (List String) :=
  shlexGo s.data .norm [] false []

/-! ### A small backtracking regex engine

Only the constructs used by the patterns in the source are supported:
case-insensitive literals, repetitions of a character class (greedy or
lazy, with a minimum count), concatenation, alternation, greedy option,
and numbered capture groups.  `mAll` enumerates candidate matches in
exactly Python's backtracking preference order, so taking the head of the
list at the leftmost matching position reproduces `re.search`. -/

/-- Character classes, by tag: 0 = whitespace, 1 = non-whitespace,
2 = any-but-newline (the dot), 3 = word, 4 = word-or-hyphen,
5 = any-but-double-quote. -/
def clsF : Nat → Char → Bool
  | 0 => pyIsSpace
  | 1 => fun c => !(pyIsSpace c)
  | 2 => fun c => c ≠ '\n'
  | 3 => isWordChar
  | 4 => fun c => isWordChar c || c = '-'
  | 5 => fun c => c ≠ '"'
  | _ => fun _ => false

inductive RE where
  | lit : Bool → List Char → RE
  | rep : Nat → Nat → Bool → RE
  | seq : RE → RE → RE
  | alt : RE → RE → RE
  | opt : RE → RE
  | grp : Nat → RE → RE

abbrev Caps := List (Nat × List Char)

/-- Length of the maximal prefix satisfying a predicate. -/
def runLen (p : Char → Bool) : List Char → Nat
  | [] => 0
  | c :: t => if p c then runLen p t + 1 else 0

/-- Greedy repetition candidates `m, m-1, ..., lo` (empty when `m < lo`). -/
def descRange (lo m : Nat) : List Nat :=
  (List.range (m + 1 - lo)).map (fun k => m - k)

/-- Lazy repetition candidates `lo, lo+1, ..., m` (empty when `m < lo`). -/
def ascRange (lo m : Nat) : List Nat :=
  (List.range (m + 1 - lo)).map (fun k => lo + k)

/-- All candidate matches of a pattern at the start of the input, as
(consumed length, captures) in backtracking preference order. -/
def mAll : RE → List Char → List (Nat × Caps)
  | .lit ci l, cs =>
    if (if ci then (cs.take l.length).map lowerChar = l.map lowerChar
        else cs.take l.length = l) then [(l.length, [])] else []
  | .rep t lo g, cs =>
    let m := runLen (clsF t) cs
    (if g then descRange lo m else ascRange lo m).map (fun n => (n, []))
  | .seq a b, cs =>
    (mAll a cs).flatMap (fun p =>
      (mAll b (cs.drop p.1)).map (fun q => (p.1 + q.1, p.2 ++ q.2)))
  | .alt a b, cs => mAll a cs ++ mAll b cs
  | .opt a, cs => mAll a cs ++ [(0, [])]
  | .grp i a, cs => (mAll a cs).map (fun p => (p.1, p.2 ++ [(i, cs.take p.1)]))

/-- Scan for `re.search`: try each start position from the left, returning
(start, consumed, captures) of the first match. -/
def reSearchGo (r : RE) : Nat → List Char → Option (Nat × Nat × Caps)
  | st, [] =>
    match mAll r [] with
    | p :: _ => some (st, p.1, p.2)
    | [] => none
  | st, c :: t =>
    match mAll r (c :: t) with
    | p :: _ => some (st, p.1, p.2)
    | [] => reSearchGo r (st + 1) t

/-- Python `re.search(pattern, s)` (with `re.IGNORECASE`, which is how every
pattern with letters is compiled in the source). -/
def reSearch (r : RE) (cs : List Char) : Option (Nat × Nat × Caps) :=
  reSearchGo r 0 cs

/-- Whether `re.search` finds a match. -/
def reTest (r : RE) (s : String) : Bool := (reSearch r s.data).isSome

/-- The text captured by group `i` (empty when absent; in the source every
group of a successful match is present). -/
def capGet (caps : Caps) (i : Nat) : List Char :=
  match caps.find? (fun p => p.1 == i) with
  | some p => p.2
  | none => []

/-- Python `re.sub`, by fuel over the remaining input: replace each
non-overlapping match left to right. -/
def reSubGo (r : RE) (rep : Caps → List Char) : Nat → List Char → List Char
  | 0, cs => cs
  | fuel + 1, cs =>
    match reSearch r cs with
    | none => cs
    | some (st, n, caps) =>
      cs.take st ++ rep caps ++ reSubGo r rep fuel (cs.drop (st + n))

def reSub (r : RE) (rep : Caps → List Char) (cs : List Char) : List Char :=
  reSubGo r rep (cs.length + 1) cs

/-- Sequence a list of patterns. -/
def seqL : List RE → RE
  | [] => .lit true []
  | [r] => r
  | r :: rs => .seq r (seqL rs)

def litS (s : String) : RE := .lit true s.data

/-- A case-sensitive literal (for the one pattern compiled without
IGNORECASE, the quoted-SQL pattern of line 95). -/
def litCS (s : String) : RE := .lit false s.data

/-- The pattern `\s+`. -/
def wsP : RE := .rep 0 1 true

/-! ### The regex patterns appearing in the source -/

/-- Pattern `"([^"]*)"` of `handle_bigquery_query`. -/
def pQuotedSql : RE := seqL [litCS "\"", .grp 1 (.rep 5 0 true), litCS "\""]

/-- Pattern `FROM\s+\w+[-\w]*\.\w+\.\w+` (IGNORECASE). -/
def pFromTest : RE :=
  seqL [litS "FROM", wsP, .rep 3 1 true, .rep 4 0 true, litS ".",
        .rep 3 1 true, litS ".", .rep 3 1 true]

/-- Pattern `(FROM\s+)(\w+[-\w]*\.\w+\.\w+)` (IGNORECASE) used by `re.sub`. -/
def pFromSub : RE :=
  .seq (.grp 1 (.seq (litS "FROM") wsP))
       (.grp 2 (seqL [.rep 3 1 true, .rep 4 0 true, litS ".",
                      .rep 3 1 true, litS ".", .rep 3 1 true]))

/-- The backtick character. -/
def btChar : Char := Char.ofNat 96

/-- Replacement template `\1` backtick `\2` backtick of the backtick fix. -/
def fromRepl (caps : Caps) : List Char :=
  capGet caps 1 ++ btChar :: (capGet caps 2 ++ [btChar])

/-- Pattern `list\s+(?:all\s+)?(?:gcp\s+)?projects`. -/
def pListProjects : RE :=
  seqL [litS "list", wsP, .opt (.seq (litS "all") wsP),
        .opt (.seq (litS "gcp") wsP), litS "projects"]

/-- Pattern `list\s+(?:all\s+)?(?:gcp\s+)?instances`. -/
def pListInstances : RE :=
  seqL [litS "list", wsP, .opt (.seq (litS "all") wsP),
        .opt (.seq (litS "gcp") wsP), litS "instances"]

/-- Pattern `list\s+(?:all\s+)?(?:gcp\s+)?buckets`. -/
def pListBuckets : RE :=
  seqL [litS "list", wsP, .opt (.seq (litS "all") wsP),
        .opt (.seq (litS "gcp") wsP), litS "buckets"]

/-- Pattern `list\s+(?:all\s+)?(?:gcp\s+)?regions`. -/
def pListRegions : RE :=
  seqL [litS "list", wsP, .opt (.seq (litS "all") wsP),
        .opt (.seq (litS "gcp") wsP), litS "regions"]

/-- Pattern `list\s+(?:all\s+)?(?:gcp\s+)?zones`. -/
def pListZones : RE :=
  seqL [litS "list", wsP, .opt (.seq (litS "all") wsP),
        .opt (.seq (litS "gcp") wsP), litS "zones"]

/-- Pattern `describe\s+project\s+(.+)`. -/
def pDescribeProject : RE :=
  seqL [litS "describe", wsP, litS "project", wsP, .grp 1 (.rep 2 1 true)]

/-- Pattern `list\s+(?:all\s+)?services`. -/
def pListServices : RE :=
  seqL [litS "list", wsP, .opt (.seq (litS "all") wsP), litS "services"]

/-- Pattern `in\s+project\s+(\S+)`. -/
def pInProject : RE :=
  seqL [litS "in", wsP, litS "project", wsP, .grp 1 (.rep 1 1 true)]

/-- Pattern `in\s+dataset\s+(\S+)`. -/
def pInDataset : RE :=
  seqL [litS "in", wsP, litS "dataset", wsP, .grp 1 (.rep 1 1 true)]

/-- Pattern `list\s+(?:all\s+)?billing\s+accounts`. -/
def pListBillingAccounts : RE :=
  seqL [litS "list", wsP, .opt (.seq (litS "all") wsP), litS "billing", wsP,
        litS "accounts"]

/-- Pattern `link\s+billing\s+account\s+(.+?)\s+to\s+project\s+(.+)`. -/
def pLinkTo : RE :=
  seqL [litS "link", wsP, litS "billing", wsP, litS "account", wsP,
        .grp 1 (.rep 2 1 false), wsP, litS "to", wsP, litS "project", wsP,
        .grp 2 (.rep 2 1 true)]

/-- Pattern `set\s+billing\s+account\s+(.+?)\s+for\s+project\s+(.+)`. -/
def pSetFor : RE :=
  seqL [litS "set", wsP, litS "billing", wsP, litS "account", wsP,
        .grp 1 (.rep 2 1 false), wsP, litS "for", wsP, litS "project", wsP,
        .grp 2 (.rep 2 1 true)]

/-- Pattern `connect\s+billing\s+account\s+(.+?)\s+to\s+project\s+(.+)`. -/
def pConnectTo : RE :=
  seqL [litS "connect", wsP, litS "billing", wsP, litS "account", wsP,
        .grp 1 (.rep 2 1 false), wsP, litS "to", wsP, litS "project", wsP,
        .grp 2 (.rep 2 1 true)]

/-- Pattern `(?:link|set|connect)\s+billing\s+account\s+(.+?)\s+(?:to|for)\s+project\s+(.+)`. -/
def pBillingCombined : RE :=
  seqL [.alt (litS "link") (.alt (litS "set") (litS "connect")), wsP,
        litS "billing", wsP, litS "account", wsP, .grp 1 (.rep 2 1 false), wsP,
        .alt (litS "to") (litS "for"), wsP, litS "project", wsP,
        .grp 2 (.rep 2 1 true)]

/-- Pattern `(?:show|list)\s+(?:all\s+)?(?:bigquery|bq)\s+datasets`. -/
def pShowDatasets : RE :=
  seqL [.alt (litS "show") (litS "list"), wsP, .opt (.seq (litS "all") wsP),
        .alt (litS "bigquery") (litS "bq"), wsP, litS "datasets"]

/-- Pattern `(?:show|list)\s+(?:all\s+)?(?:bigquery|bq)\s+tables`. -/
def pShowTables : RE :=
  seqL [.alt (litS "show") (litS "list"), wsP, .opt (.seq (litS "all") wsP),
        .alt (litS "bigquery") (litS "bq"), wsP, litS "tables"]

/-! ### Python values, dictionaries, and the execution world -/

/-- A Python value as produced and consumed by this program: strings,
integers, booleans, `None`, JSON-style lists and dictionaries. -/
inductive PyVal where
  | str : String → PyVal
  | int : Int → PyVal
  | bool : Bool → PyVal
  | none : PyVal
  | list : List PyVal → PyVal
  | dict : List (String × PyVal) → PyVal

/-- A Python dictionary with string keys, in insertion order. -/
abbrev PyDict := List (String × PyVal)

/-- Dictionary lookup (`d[k]` when present, else `Option.none`). -/
def dget (d : PyDict) (k : String) : Option PyVal :=
  (d.find? (fun p => p.1 == k)).map (fun p => p.2)

/-- A single-quote character as a string (for building Python message
texts without apostrophe literals). -/
def sq : String := ⟨[Char.ofNat 39]⟩

/-- Decimal rendering of an integer, for Python `str` of an int. -/
def intStr (n : Int) : String := toString n

mutual

/-- Python `repr` of a value (close rendering; only scalar and string cases
are ever inspected by the claims). -/
def pyRepr : PyVal → String
  | .str s => sq ++ s ++ sq
  | .int n => intStr n
  | .bool b => if b then "True" else "False"
  | .none => "None"
  | .list l => "[" ++ joinSep ", " (pyReprL l) ++ "]"
  | .dict d => "\x7b" ++ joinSep ", " (pyReprD d) ++ "\x7d"

def pyReprL : List PyVal → List String
  | [] => []
  | v :: t => pyRepr v :: pyReprL t

def pyReprD : List (String × PyVal) → List String
  | [] => []
  | p :: t => (sq ++ p.1 ++ sq ++ ": " ++ pyRepr p.2) :: pyReprD t

end

/-- Python `str` of a value, as used by f-string interpolation. -/
def pyStr : PyVal → String
  | .str s => s
  | v => pyRepr v

/-- An argument of the subprocess vector; Python `None` (an unset tool
path) is `Option.none`. -/
abbrev Arg := Option String

/-- The sequence of argument vectors handed to `subprocess.run`, recorded
so that claims about the subprocess boundary can be stated. -/
abbrev Trace := List (List Arg)

/-- A computation that may raise (uncaught Python exception = `.error`)
and records its subprocess attempts. -/
abbrev Eff (α : Type) := Except String α × Trace

/-- Outcome of one `subprocess.run` invocation on a well-formed vector:
exit 0 with stdout and stderr, a `CalledProcessError` (non-zero exit) with
stderr and return code, or any other raised exception (for example
`FileNotFoundError` when the tool path does not exist). -/
inductive RunOutcome where
  | ok : String → String → RunOutcome
  | fail : String → Int → RunOutcome
  | raiseErr : String → RunOutcome

/-- The external world: the process environment, the behaviour of
`subprocess.run`, and the `json.loads` / `json.dumps` library functions
(`jloads` returns `Option.none` for a `JSONDecodeError`). -/
structure World where
  env : String → Option String
  run : List String → RunOutcome
  jloads : String → Option PyVal
  jdumps : PyVal → String

/-- Message of the `TypeError` raised by `subprocess.run` when the argument
vector contains `None` (an unset tool-path environment variable). -/
def typeErrMsg : String :=
  "TypeError: expected str, bytes or os.PathLike object, not NoneType"

/-- Message of the `AttributeError` raised by calling `startswith` on `None`. -/
def attrErrMsg : String :=
  "AttributeError: " ++ sq ++ "NoneType" ++ sq ++ " object has no attribute " ++
    sq ++ "startswith" ++ sq

/-- Message of a `RecursionError` (Python recursion limit, default 1000). -/
def recErrMsg : String := "RecursionError: maximum recursion depth exceeded"

/-- All-some extraction of an argument vector; `Option.none` when some
entry is Python `None`. -/
def allSome : List Arg → Option (List String)
  | [] => some []
  | Option.none :: _ => Option.none
  | some s :: t => (allSome t).map (s :: ·)

/-- Python `str(CalledProcessError)` when stderr is empty. -/
def strCPE (args : List Arg) (rc : Int) : String :=
  "Command " ++ sq ++ "[" ++
    joinSep ", " (args.map (fun a => match a with
      | some s => sq ++ s ++ sq
      | Option.none => "None")) ++
    "]" ++ sq ++ " returned non-zero exit status " ++ intStr rc ++ "."

/-- Embedding of `execute_subprocess` (command_executor.py lines 21-63):
run the vector; on exit 0 try `json.loads` on stdout and fall back to the
trimmed text; on `CalledProcessError` return the error dictionary with the
trimmed stderr (or the stringified exception when stderr is empty) and the
exit code.  Only `CalledProcessError` is caught: any other exception
(launch failure, unset path) propagates as `.error`. -/
def executeSubprocess (w : World) (args : List Arg) : Eff PyDict :=
  match allSome args with
  | Option.none => (.error typeErrMsg, [args])
  | some argv =>
    match w.run argv with
    | .ok out _ =>
      match w.jloads out with
      | some v => (.ok [("status", .str "success"), ("result", v)], [args])
      | Option.none =>
        (.ok [("status", .str "success"), ("result", .str (pyStrip out))], [args])
    | .fail errS rc =>
      (.ok [("status", .str "error"),
            ("error_message", .str (if errS = "" then strCPE args rc else pyStrip errS)),
            ("exit_code", .int rc)], [args])
    | .raiseErr m => (.error m, [args])

/-! ### The command handlers (command_executor.py) -/

/-- Python `any(arg.startswith("--format") for arg in args)` over a vector
that may contain `None`: short-circuits on the first match, raises
`AttributeError` if `None` is reached first. -/
def formatAny : List Arg → Except String Bool
  | [] => .ok false
  | Option.none :: _ => .error attrErrMsg
  | some s :: t => if pyStartsWith s "--format" then .ok true else formatAny t

/-- Embedding of `handle_gcloud_command` (lines 174-197): strip the
`"gcloud "` prefix, `shlex.split` the remainder, append `--format=json`
unless some token already starts with `--format`, and execute. -/
def handleGcloudCommand (w : World) (gcloudPath : Arg) (command : String) :
    Eff PyDict :=
  let gcloudCommand : String := ⟨command.data.drop 7⟩
  match shlexSplit gcloudCommand with
  | .error m => (.error m, [])
  | .ok commandArgs =>
    let args : List Arg :=
      if commandArgs.any (fun a => pyStartsWith a "--format") then
        gcloudPath :: commandArgs.map some
      else
        gcloudPath :: (commandArgs ++ ["--format=json"]).map some
    executeSubprocess w args

/-- Embedding of `handle_bigquery_command` (lines 149-172): same as the
gcloud handler with the `"bq "` prefix. -/
def handleBigqueryCommand (w : World) (bqPath : Arg) (command : String) :
    Eff PyDict :=
  let bqCommand : String := ⟨command.data.drop 3⟩
  match shlexSplit bqCommand with
  | .error m => (.error m, [])
  | .ok commandArgs =>
    let args : List Arg :=
      if commandArgs.any (fun a => pyStartsWith a "--format") then
        bqPath :: commandArgs.map some
      else
        bqPath :: (commandArgs ++ ["--format=json"]).map some
    executeSubprocess w args

/-- The Python condition of the flag/SQL boundary loop (line 109):
boundary at a token not starting with `--` whose predecessor (when there
is one) contains `=` or does not start with `--`. -/
def flagBoundaryGo : Option String → Nat → List String → Option Nat
  | _, _, [] => Option.none
  | prev, i, p :: t =>
    if !(pyStartsWith p "--") &&
        (match prev with
         | Option.none => true
         | some q => containsChar q '=' || !(pyStartsWith q "--")) then
      some i
    else flagBoundaryGo (some p) (i + 1) t

/-- The `flag_end_idx` loop of `handle_bigquery_query` (lines 106-111). -/
def flagEndIdx (parts : List String) : Option Nat :=
  flagBoundaryGo Option.none 0 parts

/-- The flag/SQL separation of `handle_bigquery_query` (lines 90-118):
if a double-quoted substring exists, everything before it (tokenized by
shlex when nonempty after stripping) is flags and the quoted substring
(quotes included, as in the source) is the SQL; otherwise tokenize and
split at the boundary index, or take the whole remainder as SQL. -/
def bqFlagsSql (rest : String) : Except String (List String × String) :=
  match reSearch pQuotedSql rest.data with
  | some (st, n, _) =>
    let sql : List Char := (rest.data.drop st).take n
    let idx := (findSubCL sql rest.data).getD 0
    let beforeSql := stripChars (rest.data.take idx)
    if beforeSql ≠ [] then
      match shlexSplit ⟨beforeSql⟩ with
      | .error m => .error m
      | .ok fl => .ok (fl, ⟨sql⟩)
    else .ok ([], ⟨sql⟩)
  | Option.none =>
    match shlexSplit rest with
    | .error m => .error m
    | .ok parts =>
      match flagEndIdx parts with
      | some i => .ok (parts.take i, joinSep " " (parts.drop i))
      | Option.none => .ok ([], rest)

/-- The early-error dictionary of `handle_bigquery_query` (lines 78-82). -/
def missingSqlDict : PyDict :=
  [("status", .str "error"),
   ("error_message", .str "Invalid BigQuery query command. Missing SQL query.")]

/-- Quote stripping of the SQL (lines 127-129). -/
def stripQuotesTok (sql : String) : String :=
  if pyStartsWith sql "\"" && pyEndsWith sql "\"" then
    ⟨(sql.data.drop 1).take (sql.data.length - 2)⟩
  else sql

/-- Backtick insertion around a dotted table reference after FROM
(lines 131-140): only when the SQL contains no backtick and the search
pattern matches. -/
def backtickFix (sql : String) : String :=
  if !(sql.data.contains btChar) && (reSearch pFromTest sql.data).isSome then
    ⟨reSub pFromSub fromRepl sql.data⟩
  else sql

/-- Result of building the bq-query vector: either the early error
dictionary or the final argument vector. -/
inductive BqQueryStep where
  | errDict : PyDict → BqQueryStep
  | vector : List Arg → BqQueryStep

/-- Argument-vector construction of `handle_bigquery_query` (lines 65-142):
split the command into three segments, separate flags and SQL, append
`--format=json` when no element of `[bq_path, "query", *flags]` starts
with `--format` (raising `AttributeError` when `bq_path` is `None`), strip
surrounding double quotes from the SQL, apply the backtick fix, and append
the SQL. -/
def bqQueryBuild (bqPath : Arg) (command : String) : Except String BqQueryStep :=
  let cmdParts := pySplitMax2CL command.data
  if cmdParts.length < 3 then .ok (.errDict missingSqlDict)
  else
    let rest : String := ⟨cmdParts.getD 2 []⟩
    match bqFlagsSql rest with
    | .error m => .error m
    | .ok (flags, sql) =>
      let args : List Arg := bqPath :: some "query" :: flags.map some
      match formatAny args with
      | .error m => .error m
      | .ok hasFmt =>
        let args2 := if hasFmt then args else args ++ [some "--format=json"]
        let sql2 := backtickFix (stripQuotesTok sql)
        .ok (.vector (args2 ++ [some sql2]))

/-- Embedding of `handle_bigquery_query`: build the vector and execute. -/
def handleBigqueryQuery (w : World) (bqPath : Arg) (command : String) :
    Eff PyDict :=
  match bqQueryBuild bqPath command with
  | .error m => (.error m, [])
  | .ok (.errDict d) => (.ok d, [])
  | .ok (.vector v) => executeSubprocess w v

/-- Embedding of `execute_gcloud_command` (lines 199-226): resolve the tool
paths from the environment (possibly `None`) and dispatch on the command
prefix, in source order. -/
def executeGcloudCommand (w : World) (command : String) : Eff PyDict :=
  let gcloudPath := w.env "GCLOUD_PATH"
  let bqPath := w.env "BQ_PATH"
  if pyStartsWith command "bq query " then handleBigqueryQuery w bqPath command
  else if pyStartsWith command "bq " then handleBigqueryCommand w bqPath command
  else if pyStartsWith command "gcloud " then handleGcloudCommand w gcloudPath command
  else
    (.ok [("status", .str "error"),
          ("error_message", .str ("Unsupported command format: " ++ command))], [])

/-! ### gcp_tool.py -/

/-- Embedding of `get_suggested_commands` (gcp_tool.py lines 29-102):
keyword-driven accumulation of canned command suggestions, in source
order, with a fixed fallback list when nothing matched. -/
def getSuggestedCommands (query : String) : String :=
  let lsa := ["list", "show", "all"]
  let s :=
    (if ciHas query "project" then
      (if ciHasAny query lsa then ["gcloud projects list"] else []) ++
      (if ciHasAny query ["describe", "detail", "info"] then
        ["gcloud projects describe [PROJECT_ID]"] else [])
     else []) ++
    (if ciHasAny query ["instance", "vm", "compute"] && ciHasAny query lsa then
      ["gcloud compute instances list"] else []) ++
    (if ciHasAny query ["storage", "bucket"] && ciHasAny query lsa then
      ["gcloud storage ls"] else []) ++
    (if ciHas query "region" && ciHasAny query lsa then
      ["gcloud compute regions list"] else []) ++
    (if ciHas query "zone" && ciHasAny query lsa then
      ["gcloud compute zones list"] else []) ++
    (if ciHas query "service" && ciHasAny query lsa then
      ["gcloud services list", "gcloud services list --project=[PROJECT_ID]"]
     else []) ++
    (if ciHasAny query ["billing", "account"] then
      (if ciHasAny query lsa then ["gcloud billing accounts list"] else []) ++
      (if ciHasAny query ["link", "connect", "set"] then
        ["gcloud billing projects link [PROJECT_ID] --billing-account=[ACCOUNT_ID]"]
       else [])
     else []) ++
    (if ciHasAny query ["bigquery", "bq", "dataset"] then
      (if ciHas query "dataset" && ciHasAny query lsa then
        ["bq ls", "bq ls --format=json", "bq ls --project=[PROJECT_ID]"] else []) ++
      (if ciHas query "table" && ciHasAny query lsa then
        ["bq ls [DATASET_ID]", "bq ls --project=[PROJECT_ID] [DATASET_ID]"] else [])
     else []) ++
    (if ciHasAny query ["log", "logs", "logging"] then
      (if ciHasAny query ["read", "view", "show", "get"] then
        ["gcloud logging read \"resource.type=gce_instance\" --limit=10",
         "gcloud logging read \"severity>=ERROR\" --project=[PROJECT_ID] --limit=10"]
       else []) ++
      (if ciHas query "list" then
        ["gcloud logging logs list", "gcloud logging logs list --project=[PROJECT_ID]"]
       else [])
     else [])
  let s := if s = [] then
      ["gcloud projects list", "gcloud compute instances list", "gcloud storage ls",
       "gcloud compute regions list", "gcloud compute zones list",
       "gcloud services list", "gcloud billing accounts list",
       "gcloud logging read --limit=10", "bq ls"]
    else s
  "You can try these commands (type the full command to execute directly):\n" ++
    joinSep "\n" s

/-- Message of the `AttributeError` raised by calling `.get` on a value that
is not a dictionary (for example a string element of a parsed JSON list). -/
def getAttrErrMsg : String :=
  "AttributeError: object has no attribute " ++ sq ++ "get" ++ sq

/-- Message of the `AttributeError` raised by calling `.split` on a value
that is not a string. -/
def splitAttrErrMsg : String :=
  "AttributeError: object has no attribute " ++ sq ++ "split" ++ sq

/-- Python `v.get(k, default)`: dictionary lookup with default, raising
`AttributeError` on non-dictionaries. -/
def pyGet (v : PyVal) (k : String) (d : PyVal) : Except String PyVal :=
  match v with
  | .dict entries => .ok ((dget entries k).getD d)
  | _ => .error getAttrErrMsg

/-- Sequential evaluation of a formatter over items, raising on the first
failure (as the list comprehension in `_format_list_response` does). -/
def mapExcept (f : PyVal → Except String String) :
    List PyVal → Except String (List String)
  | [] => .ok []
  | a :: t =>
    match f a with
    | .error m => .error m
    | .ok b =>
      match mapExcept f t with
      | .error m => .error m
      | .ok bs => .ok (b :: bs)

/-- Embedding of `_format_list_response` (gcp_tool.py lines 12-27): for an
empty item list the text is `"No " + title.lower() + " found."`; otherwise
the title line followed by one formatted line per item. -/
def formatListResponse (items : List PyVal) (title : String)
    (fmt : PyVal → Except String String) : Except String String :=
  if items.isEmpty then .ok ("No " ++ pyLower title ++ " found.")
  else
    match mapExcept fmt items with
    | .error m => .error m
    | .ok lines => .ok (title ++ ":\n" ++ joinSep "\n" lines)

/-- Item formatter of the list-projects branch (line 147). -/
def projectFmt (p : PyVal) : Except String String :=
  match pyGet p "name" (.str "Unknown") with
  | .error m => .error m
  | .ok n =>
    match pyGet p "projectId" (.str "Unknown") with
    | .error m => .error m
    | .ok pid => .ok ("- " ++ pyStr n ++ " (ID: " ++ pyStr pid ++ ")")

/-- Item formatter of the list-instances branch (line 159). -/
def instanceFmt (i : PyVal) : Except String String :=
  match pyGet i "name" (.str "Unknown") with
  | .error m => .error m
  | .ok n =>
    match pyGet i "zone" (.str "Unknown") with
    | .error m => .error m
    | .ok z =>
      match pyGet i "status" (.str "Unknown") with
      | .error m => .error m
      | .ok st => .ok ("- " ++ pyStr n ++ " (" ++ pyStr z ++ ", " ++ pyStr st ++ ")")

/-- Item formatter of the list-services branch (line 209). -/
def serviceFmt (s : PyVal) : Except String String :=
  match pyGet s "name" (.str "Unknown") with
  | .error m => .error m
  | .ok n => .ok ("- " ++ pyStr n)

/-- Item formatter of the list-regions branch (line 223). -/
def regionFmt (r : PyVal) : Except String String :=
  match pyGet r "name" (.str "Unknown") with
  | .error m => .error m
  | .ok n =>
    match pyGet r "status" (.str "Unknown") with
    | .error m => .error m
    | .ok st => .ok ("- " ++ pyStr n ++ " (" ++ pyStr st ++ ")")

/-- Item formatter of the list-zones branch (line 235). -/
def zoneFmt (z : PyVal) : Except String String :=
  match pyGet z "name" (.str "Unknown") with
  | .error m => .error m
  | .ok n =>
    match pyGet z "region" (.str "Unknown") with
    | .error m => .error m
    | .ok rg =>
      match pyGet z "status" (.str "Unknown") with
      | .error m => .error m
      | .ok st => .ok ("- " ++ pyStr n ++ " (" ++ pyStr rg ++ ", " ++ pyStr st ++ ")")

/-- Item formatter of the billing-accounts branch (lines 247-249), with the
`name.split('/')[-1]` step raising on non-strings. -/
def accountFmt (a : PyVal) : Except String String :=
  match pyGet a "displayName" (.str "Unknown") with
  | .error m => .error m
  | .ok dn =>
    match pyGet a "name" (.str "Unknown") with
    | .error m => .error m
    | .ok nv =>
      match nv with
      | .str ns =>
        match pyGet a "open" (.bool false) with
        | .error m => .error m
        | .ok op =>
          .ok ("- " ++ pyStr dn ++ " (ID: " ++ splitSlashLast ns ++ ", Open: " ++
            pyStr op ++ ")")
      | _ => .error splitAttrErrMsg

/-- Item formatter of the datasets branch (line 318). -/
def datasetFmt (d : PyVal) : Except String String :=
  match pyGet d "id" (.str "Unknown") with
  | .error m => .error m
  | .ok iv =>
    match pyGet d "location" (.str "Unknown") with
    | .error m => .error m
    | .ok lv => .ok ("- " ++ pyStr iv ++ " (" ++ pyStr lv ++ ")")

/-- Item formatter of the tables branch (line 350). -/
def tableFmt (t : PyVal) : Except String String :=
  match pyGet t "tableId" (.str "Unknown") with
  | .error m => .error m
  | .ok iv =>
    match pyGet t "type" (.str "TABLE") with
    | .error m => .error m
    | .ok tv => .ok ("- " ++ pyStr iv ++ " (" ++ pyStr tv ++ ")")

/-- Sequencing of an execution with a pure continuation (none of the
response-shaping code after an execution runs another subprocess). -/
def effThen (x : Eff PyDict) (f : PyDict → Except String PyDict) : Eff PyDict :=
  match x with
  | (.error m, t) => (.error m, t)
  | (.ok a, t) => (f a, t)

/-- Python `result[k]`, raising `KeyError` when absent. -/
def pyDictIdx (d : PyDict) (k : String) : Except String PyVal :=
  match dget d k with
  | some v => .ok v
  | Option.none => .error ("KeyError: " ++ sq ++ k ++ sq)

/-- Comparison of a Python value with a string literal (`v == "success"`). -/
def isStrEq (v : PyVal) (s : String) : Bool :=
  match v with
  | .str t => t = s
  | _ => false

/-- Continuation of the direct-command branch of `gcp_tool`
(lines 116-139): wrap a success into a report (serializing structured
results with `json.dumps(..., indent=2)`), wrap an error with suggestions. -/
def directCont (w : World) (query : String) (result : PyDict) :
    Except String PyDict :=
  match pyDictIdx result "status" with
  | .error m => .error m
  | .ok st =>
    if isStrEq st "success" then
      match pyDictIdx result "result" with
      | .error m => .error m
      | .ok rv =>
        match rv with
        | .list _ =>
          .ok [("status", .str "success"),
               ("report", .str ("Command executed successfully:\n" ++ w.jdumps rv))]
        | .dict _ =>
          .ok [("status", .str "success"),
               ("report", .str ("Command executed successfully:\n" ++ w.jdumps rv))]
        | _ =>
          .ok [("status", .str "success"),
               ("report", .str ("Command executed successfully:\n" ++ pyStr rv))]
    else
      match pyDictIdx result "error_message" with
      | .error m => .error m
      | .ok em =>
        .ok [("status", .str "error"),
             ("error_message", .str ("Error executing command: " ++ pyStr em)),
             ("suggested_commands", .str (getSuggestedCommands query))]

/-- Continuation shared by the simple listing branches (projects,
instances, regions, zones, billing accounts, services): on a successful
execution whose result is a list, format it; otherwise return the raw
execution result unchanged. -/
def listCont (title : String) (fmt : PyVal → Except String String)
    (result : PyDict) : Except String PyDict :=
  match pyDictIdx result "status" with
  | .error m => .error m
  | .ok st =>
    if isStrEq st "success" then
      match pyDictIdx result "result" with
      | .error m => .error m
      | .ok rv =>
        match rv with
        | .list items =>
          match formatListResponse items title fmt with
          | .error m => .error m
          | .ok rep => .ok [("status", .str "success"), ("report", .str rep)]
        | _ => .ok result
    else .ok result

/-- A simple listing branch of `gcp_tool`: execute a fixed command and
shape the response with `listCont`. -/
def listBranch (w : World) (cmd title : String)
    (fmt : PyVal → Except String String) : Eff PyDict :=
  effThen (executeGcloudCommand w cmd) (listCont title fmt)

/-- Default gcloud path of the buckets branch (line 169). -/
def defaultGcloudPath : String :=
  "C:\\Users\\roapp\\AppData\\Local\\Google\\Cloud SDK\\google-cloud-sdk\\bin\\gcloud.cmd"

/-- Embedding of the list-buckets branch (lines 166-190): build the fixed
vector `[gcloud_path, "storage", "ls", "--format=gsutil"]` with the path
resolved from the environment with a literal default, run it directly
(bypassing `execute_subprocess`, so stdout is never JSON-parsed), and wrap
stdout into a fixed-header report; a `CalledProcessError` becomes the
error dictionary without suggestions. -/
def bucketsBranch (w : World) : Eff PyDict :=
  let gp := (w.env "GCLOUD_PATH").getD defaultGcloudPath
  let args : List Arg := [some gp, some "storage", some "ls", some "--format=gsutil"]
  match w.run [gp, "storage", "ls", "--format=gsutil"] with
  | .ok out _ =>
    (.ok [("status", .str "success"),
          ("report", .str ("Here are the available storage buckets:\n" ++ pyStrip out))],
     [args])
  | .fail errS rc =>
    (.ok [("status", .str "error"),
          ("error_message", .str (if errS = "" then strCPE args rc else pyStrip errS)),
          ("exit_code", .int rc)], [args])
  | .raiseErr m => (.error m, [args])

/-- The fallback error message of `gcp_tool` (line 366), carrying the
verbatim query between single quotes. -/
def noMatchMsg (query : String) : String :=
  "I" ++ sq ++ "m not sure how to process your query: " ++ sq ++ query ++ sq ++
    ". Try asking about listing projects, instances, buckets, regions, zones, services, billing accounts, or BigQuery datasets and tables."

/-- The final fallback response of `gcp_tool` (lines 363-368): an error
carrying the verbatim query and the suggestion list. -/
def noMatchDict (query : String) : PyDict :=
  [("status", .str "error"),
   ("error_message", .str (noMatchMsg query)),
   ("suggested_commands", .str (getSuggestedCommands query))]

/-- Embedding of the describe-project branch (lines 192-196); when the
inner re-match fails the body falls through to the final fallback. -/
def describeBranch (w : World) (query : String) : Eff PyDict :=
  match reSearch pDescribeProject query.data with
  | some (_, _, caps) =>
    executeGcloudCommand w
      ("gcloud projects describe " ++ (⟨stripChars (capGet caps 1)⟩ : String))
  | Option.none => (.ok (noMatchDict query), [])

/-- Embedding of the list-services branch (lines 198-216), with the
optional `in project X` qualifier injected into the command and title. -/
def servicesBranch (w : World) (query : String) : Eff PyDict :=
  match reSearch pInProject query.data with
  | some (_, _, caps) =>
    let pid : String := ⟨capGet caps 1⟩
    effThen (executeGcloudCommand w ("gcloud services list --project=" ++ pid))
      (listCont ("Available services in project " ++ pid) serviceFmt)
  | Option.none =>
    effThen (executeGcloudCommand w "gcloud services list")
      (listCont "Available services" serviceFmt)

/-- Continuation of the billing-link branch (lines 273-278). -/
def billingCont (ba pid : String) (result : PyDict) : Except String PyDict :=
  match pyDictIdx result "status" with
  | .error m => .error m
  | .ok st =>
    if isStrEq st "success" then
      .ok [("status", .str "success"),
           ("report", .str ("Successfully linked billing account " ++ sq ++ ba ++ sq ++
              " to project " ++ sq ++ pid ++ sq ++ "."))]
    else .ok result

/-- Embedding of the billing-link branch (lines 256-278): extract the two
captures with the combined pattern, strip them, drop a
`billingAccounts/` namespace from the account id, execute the literal
link command, and wrap a success into a confirmation. -/
def billingLinkBranch (w : World) (query : String) : Eff PyDict :=
  match reSearch pBillingCombined query.data with
  | some (_, _, caps) =>
    let ba0 : String := pyStrip ⟨capGet caps 1⟩
    let pid : String := pyStrip ⟨capGet caps 2⟩
    let ba := if pyStartsWith ba0 "billingAccounts/" then splitSlashLast ba0 else ba0
    effThen
      (executeGcloudCommand w
        ("gcloud billing projects link " ++ pid ++ " --billing-account=" ++ ba))
      (billingCont ba pid)
  | Option.none => (.ok (noMatchDict query), [])

/-- Continuation of the datasets branch (lines 308-323): a successful list
result renders the special empty text or the formatted list; anything else
is returned unchanged. -/
def datasetsCont (projInfo : String) (result : PyDict) : Except String PyDict :=
  match pyDictIdx result "status" with
  | .error m => .error m
  | .ok st =>
    if isStrEq st "success" then
      match pyDictIdx result "result" with
      | .error m => .error m
      | .ok rv =>
        match rv with
        | .list items =>
          if items.isEmpty then
            .ok [("status", .str "success"),
                 ("report", .str ("No BigQuery datasets found" ++ projInfo ++ "."))]
          else
            match formatListResponse items ("BigQuery datasets" ++ projInfo) datasetFmt with
            | .error m => .error m
            | .ok rep => .ok [("status", .str "success"), ("report", .str rep)]
        | _ => .ok result
    else .ok result

/-- Embedding of the datasets branch (lines 298-323). -/
def datasetsBranch (w : World) (query : String) : Eff PyDict :=
  match reSearch pInProject query.data with
  | some (_, _, caps) =>
    let pid : String := ⟨capGet caps 1⟩
    effThen (executeGcloudCommand w ("bq ls --project=" ++ pid))
      (datasetsCont (" in project " ++ pid))
  | Option.none =>
    effThen (executeGcloudCommand w "bq ls") (datasetsCont "")

/-- Continuation of the tables branch (lines 340-355). -/
def tablesCont (datasetId projInfo : String) (result : PyDict) :
    Except String PyDict :=
  match pyDictIdx result "status" with
  | .error m => .error m
  | .ok st =>
    if isStrEq st "success" then
      match pyDictIdx result "result" with
      | .error m => .error m
      | .ok rv =>
        match rv with
        | .list items =>
          if items.isEmpty then
            .ok [("status", .str "success"),
                 ("report", .str ("No tables found in dataset " ++ datasetId ++
                    projInfo ++ "."))]
          else
            match formatListResponse items
                ("Tables in dataset " ++ datasetId ++ projInfo) tableFmt with
            | .error m => .error m
            | .ok rep => .ok [("status", .str "success"), ("report", .str rep)]
        | _ => .ok result
    else .ok result

/-- The error response of the tables branch when no dataset is named
(lines 356-361). -/
def tablesNoDatasetDict : PyDict :=
  [("status", .str "error"),
   ("error_message", .str ("Please specify a dataset. For example: " ++ sq ++
      "Show BigQuery tables in dataset my_dataset" ++ sq ++ ".")),
   ("suggested_commands", .str ("You might want to try these commands:\nbq ls [DATASET_ID]\nbq ls --project=[PROJECT_ID] [DATASET_ID]"))]

/-- Embedding of the tables branch (lines 325-361). -/
def tablesBranch (w : World) (query : String) : Eff PyDict :=
  match reSearch pInDataset query.data with
  | some (_, _, dcaps) =>
    let did : String := ⟨capGet dcaps 1⟩
    match reSearch pInProject query.data with
    | some (_, _, pcaps) =>
      let pid : String := ⟨capGet pcaps 1⟩
      effThen (executeGcloudCommand w ("bq ls --project=" ++ pid ++ " " ++ did))
        (tablesCont did (" in project " ++ pid))
    | Option.none =>
      effThen (executeGcloudCommand w ("bq ls " ++ did)) (tablesCont did "")
  | Option.none => (.ok tablesNoDatasetDict, [])

/-- Branch condition: list projects. -/
def condListProjects (q : String) : Bool := reTest pListProjects q

/-- Branch condition: list instances. -/
def condListInstances (q : String) : Bool := reTest pListInstances q

/-- Branch condition: list buckets. -/
def condListBuckets (q : String) : Bool := reTest pListBuckets q

/-- Branch condition: describe project. -/
def condDescribeProject (q : String) : Bool := reTest pDescribeProject q

/-- Branch condition: list services. -/
def condListServices (q : String) : Bool := reTest pListServices q

/-- Branch condition: list regions. -/
def condListRegions (q : String) : Bool := reTest pListRegions q

/-- Branch condition: list zones. -/
def condListZones (q : String) : Bool := reTest pListZones q

/-- Branch condition: list billing accounts. -/
def condListBillingAccounts (q : String) : Bool := reTest pListBillingAccounts q

/-- Branch condition: billing link, the disjunction of the three phrasing
patterns (lines 256-258). -/
def condBillingLink (q : String) : Bool :=
  reTest pLinkTo q || reTest pSetFor q || reTest pConnectTo q

/-- Branch condition: show BigQuery datasets. -/
def condShowDatasets (q : String) : Bool := reTest pShowDatasets q

/-- Branch condition: show BigQuery tables. -/
def condShowTables (q : String) : Bool := reTest pShowTables q

/-- One evaluation step of `gcp_tool` (lines 104-368), with `recur` the
recursive re-entry used by the literal `gcloud billing` alias branch
(lines 281-295).  The branch order is exactly the source's `if`/`elif`
chain; branch bodies that can fall through without returning reach the
final fallback response. -/
def gcpToolGo (w : World) (recur : String → Eff PyDict) (query : String) :
    Eff PyDict :=
  if pyStartsWith query "gcloud " || pyStartsWith query "bq " then
    effThen (executeGcloudCommand w query) (directCont w query)
  else if condListProjects query then
    listBranch w "gcloud projects list" "Available GCP projects" projectFmt
  else if condListInstances query then
    listBranch w "gcloud compute instances list" "Available compute instances" instanceFmt
  else if condListBuckets query then bucketsBranch w
  else if condDescribeProject query then describeBranch w query
  else if condListServices query then servicesBranch w query
  else if condListRegions query then
    listBranch w "gcloud compute regions list" "Available GCP regions" regionFmt
  else if condListZones query then
    listBranch w "gcloud compute zones list" "Available GCP zones" zoneFmt
  else if condListBillingAccounts query then
    listBranch w "gcloud billing accounts list" "Available billing accounts" accountFmt
  else if condBillingLink query then billingLinkBranch w query
  else if pyStartsWith query "gcloud billing " then
    let commandParts := (pySplitWsCL (query.data.drop 15)).map
      (fun g => (⟨g⟩ : String))
    if commandParts.length ≥ 2 && commandParts.getD 0 "" = "accounts" &&
        commandParts.getD 1 "" = "list" then
      recur "list billing accounts"
    else if commandParts.length ≥ 4 && commandParts.getD 0 "" = "projects" &&
        commandParts.getD 1 "" = "link" then
      let pid := commandParts.getD 2 ""
      match commandParts.find? (fun part => pyStartsWith part "--billing-account=") with
      | some bf =>
        let ba : String := ⟨(splitOnCharCL '=' bf.data).getD 1 []⟩
        recur ("link billing account " ++ ba ++ " to project " ++ pid)
      | Option.none => (.ok (noMatchDict query), [])
    else (.ok (noMatchDict query), [])
  else if condShowDatasets query then datasetsBranch w query
  else if condShowTables query then tablesBranch w query
  else (.ok (noMatchDict query), [])

/-- Fuelled recursion for `gcp_tool`, the fuel modelling Python's default
recursion limit; exhausting it models a `RecursionError`. -/
def gcpToolAux (w : World) : Nat → String → Eff PyDict
  | 0, _ => (.error recErrMsg, [])
  | d + 1, query => gcpToolGo w (gcpToolAux w d) query

/-- Embedding of `gcp_tool` (gcp_tool.py lines 104-368). -/
def gcpTool (w : World) (query : String) : Eff PyDict := gcpToolAux w 1000 query

/-! ### Claim-side definitions -/

/-- Whether a string token starts with `--format`. -/
def fmtS (s : String) : Bool := pyStartsWith s "--format"

/-- Whether an argument-vector entry starts with `--format` (Python `None`
entries do not). -/
def fmtTok (a : Arg) : Bool :=
  match a with
  | some s => pyStartsWith s "--format"
  | Option.none => false

/-- The two tool-response shapes named by the specification:
`(status success, report string)` or
`(status error, error_message string, suggested_commands string)`. -/
def isToolShape (d : PyDict) : Bool :=
  match d with
  | [("status", .str "success"), ("report", .str _)] => true
  | [("status", .str "error"), ("error_message", .str _),
     ("suggested_commands", .str _)] => true
  | _ => false

/-- Whether a query is accepted by some intent rule of `gcp_tool`
(the conditions of the natural-language branch chain, in source order). -/
def matchesSomeIntent (q : String) : Bool :=
  condListProjects q || condListInstances q || condListBuckets q ||
  condDescribeProject q || condListServices q || condListRegions q ||
  condListZones q || condListBillingAccounts q || condBillingLink q ||
  pyStartsWith q "gcloud billing " || condShowDatasets q || condShowTables q

/-- A token is a flag when it starts with `--` (claim C6's wording). -/
def notFlagTok (s : String) : Bool := !(pyStartsWith s "--")

/-- An unterminated flag: a `--` token without a value (no `=`). -/
def unterminatedFlag (s : String) : Bool :=
  pyStartsWith s "--" && !(containsChar s '=')

/-- Each token paired with its predecessor (the first has none). -/
def withPred (parts : List String) : List (Option String × String) :=
  (Option.none :: parts.map some).zip parts

/-- Claim C6's boundary: the index of the first token that is not itself a
flag and whose predecessor (if any) is not an unterminated flag. -/
def claimBoundary (parts : List String) : Option Nat :=
  (withPred parts).findIdx? (fun pq =>
    notFlagTok pq.2 &&
      !(match pq.1 with
        | some q => unterminatedFlag q
        | Option.none => false))

/-- A shell-safe plain token: nonempty, no whitespace, quotes or escapes
(such flags round-trip through `shlex.split` unchanged). -/
def plainChar (c : Char) : Bool :=
  !(pyIsSpace c) && !(c = '"') && !(c = '\\') && !(c = Char.ofNat 39)

def plainTok (s : String) : Bool := !(s = "") && s.data.all plainChar

/-- The canonical already-normalized bq-query command string carrying the
given flags and double-quoted body. -/
def canonBqQuery (flags : List String) (body : String) : String :=
  "bq query " ++ joinSep " " flags ++ " \"" ++ body ++ "\""

/-- Claim C7's reading of a built bq-query vector: the flag tokens after
the executable path and the `query` token, and the final SQL body. -/
def vectorFlagsBody (v : List Arg) : Option (List String × String) :=
  match v with
  | _ :: _ :: rest =>
    match allSome rest with
    | some toks =>
      match toks.getLast? with
      | some b => some (toks.dropLast, b)
      | Option.none => Option.none
    | Option.none => Option.none
  | _ => Option.none

/-! ### Concrete worlds used by counterexamples and witnesses -/

/-- An environment with both tool paths set. -/
def envStd : String → Option String := fun k =>
  if k = "GCLOUD_PATH" then some "gcloud"
  else if k = "BQ_PATH" then some "bq"
  else Option.none

/-- A benign world: every subprocess exits 0 with empty output, nothing
parses as JSON. -/
def wBase : World :=
  ⟨envStd, fun _ => .ok "" "", fun _ => Option.none, fun _ => ""⟩

/-- A world in which neither tool-path environment variable is set. -/
def wNoEnv : World :=
  ⟨fun _ => Option.none, fun _ => .ok "" "", fun _ => Option.none, fun _ => ""⟩

/-- Message of the `FileNotFoundError` raised by `subprocess.run` when the
configured tool path does not exist. -/
def fnfMsg : String :=
  "FileNotFoundError: [Errno 2] No such file or directory: gcloud"

/-- A world in which every subprocess launch raises `FileNotFoundError`
(the configured tool path points to a missing file). -/
def wBadPath : World :=
  ⟨envStd, fun _ => .raiseErr fnfMsg, fun _ => Option.none, fun _ => ""⟩

/-- A world in which every subprocess fails with stderr `boom`, exit 1. -/
def wFailBoom : World :=
  ⟨envStd, fun _ => .fail "boom" 1, fun _ => Option.none, fun _ => ""⟩

/-- A world in which every subprocess prints the empty JSON array. -/
def wEmptyList : World :=
  ⟨envStd, fun _ => .ok "[]" "",
   fun s => if s = "[]" then some (.list []) else Option.none, fun _ => ""⟩

/-- A world in which every subprocess prints one bucket URL. -/
def wBuckets : World :=
  ⟨envStd, fun _ => .ok "gs://my-bucket/\n" "", fun _ => Option.none, fun _ => ""⟩

/-! ### General lemmas about the embedding -/

theorem effThen_snd (x : Eff PyDict) (f : PyDict → Except String PyDict) :
    (effThen x f).snd = x.snd := by
  obtain ⟨e, t⟩ := x
  cases e <;> rfl

theorem executeSubprocess_snd (w : World) (args : List Arg) :
    (executeSubprocess w args).snd = [args] := by
  unfold executeSubprocess
  split
  · rfl
  · split
    · split <;> rfl
    · rfl
    · rfl

theorem gcpTool_eq (w : World) (q : String) :
    gcpTool w q = gcpToolGo w (gcpToolAux w 999) q := rfl

theorem formatAny_map_some (l : List String) :
    formatAny (l.map some) = .ok (l.any fmtS) := by
  induction l with
  | nil => rfl
  | cons a t ih =>
    simp only [List.map_cons, formatAny, List.any_cons]
    by_cases h : pyStartsWith a "--format"
    · simp [h, fmtS]
    · simp [h, fmtS, ih]

theorem backtickFix_of_contains (s : String)
    (h : s.data.contains btChar = true) : backtickFix s = s := by
  unfold backtickFix
  rw [h]
  rfl

/-- On the empty item list `_format_list_response` lowercases the title. -/
theorem formatListResponse_nil (title : String)
    (fmt : PyVal → Except String String) :
    formatListResponse [] title fmt = .ok ("No " ++ pyLower title ++ " found.") := rfl

theorem formatListResponse_cons (items : List PyVal) (title : String)
    (fmt : PyVal → Except String String) (lines : List String)
    (hne : items ≠ []) (hmap : mapExcept fmt items = .ok lines) :
    formatListResponse items title fmt = .ok (title ++ ":\n" ++ joinSep "\n" lines) := by
  cases items with
  | nil => exact absurd rfl hne
  | cons a t =>
    unfold formatListResponse
    rw [hmap]
    rfl

/-- Whatever execution-result dictionary it is given, the direct-command
continuation only ever returns one of the two tool-response shapes
(success/report or error/error_message/suggested_commands). -/
theorem directCont_shape (w : World) (q : String) (result : PyDict) (d : PyDict)
    (h : directCont w q result = .ok d) : isToolShape d = true := by
  unfold directCont at h
  split at h
  · simp at h
  · split at h
    · split at h
      · simp at h
      · split at h <;> (cases h; rfl)
    · split at h
      · simp at h
      · cases h
        rfl

/-- Every value the direct-command path of `gcp_tool` returns (when it
does not raise) has one of the two tool-response shapes. -/
theorem gcpTool_direct_shape (w : World) (q : String) (d : PyDict)
    (hpre : pyStartsWith q "gcloud " = true ∨ pyStartsWith q "bq " = true)
    (hok : (gcpTool w q).fst = .ok d) : isToolShape d = true := by
  have hdir : gcpTool w q = effThen (executeGcloudCommand w q) (directCont w q) := by
    rw [gcpTool_eq]
    rcases hpre with h | h
    · simp [gcpToolGo, h]
    · simp [gcpToolGo, h]
  rw [hdir] at hok
  rcases hX : executeGcloudCommand w q with ⟨e, t⟩
  rw [hX] at hok
  cases e with
  | error m => simp [effThen] at hok
  | ok a =>
    have hc : directCont w q a = .ok d := by
      simpa [effThen] using hok
    exact directCont_shape w q a d hc

theorem countP_map_some_fmt (l : List String) :
    (l.map some).countP fmtTok = l.countP fmtS := by
  rw [List.countP_map]
  rfl

theorem countP_zero_of_any_false {l : List String} (h : l.any fmtS = false) :
    l.countP fmtS = 0 := by
  rw [List.countP_eq_zero]
  intro a ha
  have := List.any_eq_false.mp h a ha
  simpa using this

theorem countP_ne_zero_of_any_true {l : List String} (h : l.any fmtS = true) :
    ¬ l.countP fmtS = 0 := by
  intro h0
  rw [List.countP_eq_zero] at h0
  obtain ⟨x, hx, hpx⟩ := List.any_eq_true.mp h
  exact h0 x hx hpx

/-- Counting `--format` tokens in the vector a generic handler builds. -/
theorem genericHandlerCount (p : String) (hp : pyStartsWith p "--format" = false)
    (toks : List String) :
    (if toks.any (fun a => pyStartsWith a "--format") then
        ((some p : Arg) :: toks.map some)
      else ((some p : Arg) :: (toks ++ ["--format=json"]).map some)).countP fmtTok =
      if toks.countP fmtS = 0 then 1 else toks.countP fmtS := by
  have hl : (fun a => pyStartsWith a "--format") = fmtS := rfl
  rw [hl]
  have hp2 : fmtTok (some p) = false := hp
  by_cases hany : toks.any fmtS = true
  · rw [if_pos hany, List.countP_cons, countP_map_some_fmt, hp2,
      if_neg (countP_ne_zero_of_any_true hany)]
    simp
  · have hf : toks.any fmtS = false := by
      cases h : toks.any fmtS
      · rfl
      · exact absurd h hany
    have hz := countP_zero_of_any_false hf
    have h1 : List.countP fmtS ["--format=json"] = 1 := by decide
    rw [if_neg hany, List.countP_cons, List.map_append, List.countP_append,
      countP_map_some_fmt, countP_map_some_fmt, hp2, hz, h1, if_pos rfl]
    simp

/-! ### Lemmas about the quoted-SQL extraction -/

theorem takeLen_append (l t : List Char) : (l ++ t).take l.length = l := by
  induction l with
  | nil => rfl
  | cons c l ih => simp [ih]

theorem dropLen_append (l t : List Char) : (l ++ t).drop l.length = t := by
  induction l with
  | nil => rfl
  | cons c l ih => simp [ih]

theorem takeLenPlus_append : ∀ (l : List Char) (i : Nat) (t : List Char),
    (l ++ t).take (l.length + i) = l ++ t.take i
  | [], i, t => by simp
  | c :: l, i, t => by
    have h : (c :: l).length + i = (l.length + i) + 1 := by
      simp only [List.length_cons]
      omega
    rw [h, List.cons_append, List.take_succ_cons, takeLenPlus_append l i t,
      List.cons_append]

theorem dropLe_append : ∀ (l : List Char) (n : Nat) (t : List Char),
    n ≤ l.length → (l ++ t).drop n = l.drop n ++ t
  | l, 0, t, _ => by simp
  | [], n + 1, t, h => by simp at h
  | c :: l, n + 1, t, h => by
    simp only [List.cons_append, List.drop_succ_cons]
    exact dropLe_append l n t (by simpa using h)

theorem runLen_append (p : Char → Bool) : ∀ (xs : List Char) (y : Char) (ys : List Char),
    (∀ c ∈ xs, p c = true) → p y = false → runLen p (xs ++ y :: ys) = xs.length
  | [], y, ys, _, hy => by
    show (if p y then runLen p (ys) + 1 else 0) = 0
    rw [hy]
    rfl
  | c :: xs, y, ys, hx, hy => by
    have hc := hx c (List.mem_cons_self c xs)
    show (if p c then runLen p (xs ++ y :: ys) + 1 else 0) = (c :: xs).length
    rw [hc, if_pos rfl,
      runLen_append p xs y ys (fun d hd => hx d (List.mem_cons_of_mem c hd)) hy]
    rfl

theorem flatMap_nil_of_forall {α β : Type} : ∀ (l : List α) (f : α → List β),
    (∀ x ∈ l, f x = []) → l.flatMap f = []
  | [], _, _ => rfl
  | x :: t, f, h => by
    simp only [List.flatMap_cons, h x (List.mem_cons_self x t),
      flatMap_nil_of_forall t f (fun y hy => h y (List.mem_cons_of_mem x hy))]
    rfl

theorem flatMap_single {α β : Type} : ∀ (l : List α) (f : α → List β) (a : α),
    l.head? = some a → (∀ x ∈ l.tail, f x = []) → l.flatMap f = f a ++ []
  | [], _, _, h, _ => by cases h
  | x :: t, f, a, h, ht => by
    obtain rfl : x = a := by simpa using h
    simp only [List.flatMap_cons]
    rw [flatMap_nil_of_forall t f (by simpa using ht)]

theorem descRange_zero_head (m : Nat) : (descRange 0 m).head? = some m := by
  unfold descRange
  rw [Nat.sub_zero, List.range_succ_eq_map]
  simp

theorem descRange_zero_tail_lt (m : Nat) : ∀ x ∈ (descRange 0 m).tail, x < m := by
  unfold descRange
  rw [Nat.sub_zero, List.range_succ_eq_map]
  intro x hx
  simp only [List.map_cons, List.tail_cons, List.map_map, List.mem_map,
    List.mem_range, Function.comp] at hx
  obtain ⟨k, hk, rfl⟩ := hx
  omega

theorem mAll_quoted (body suf : List Char) (hb : ('"' : Char) ∉ body) :
    mAll pQuotedSql ('"' :: (body ++ '"' :: suf)) = [(body.length + 2, [(1, body)])] := by
  have hcls : ∀ c ∈ body, clsF 5 c = true := by
    intro c hc
    have hne : c ≠ '"' := fun h => hb (h ▸ hc)
    simp [clsF, hne]
  have hrun : runLen (clsF 5) (body ++ '"' :: suf) = body.length :=
    runLen_append _ body '"' suf hcls (by simp [clsF])
  have hlitL : ∀ (n : Nat), n < body.length →
      mAll (.lit false ['"']) ((body ++ '"' :: suf).drop n) = [] := by
    intro n hn
    rw [dropLe_append body n ('"' :: suf) (Nat.le_of_lt hn)]
    cases hdr : body.drop n with
    | nil =>
      have := List.drop_eq_nil_iff.mp hdr
      omega
    | cons c r =>
      have hcm : c ∈ body := List.drop_subset n body (hdr ▸ List.mem_cons_self c r)
      have hne : c ≠ '"' := fun h => hb (h ▸ hcm)
      simp [mAll, hne]
  have hlitE : mAll (.lit false ['"']) ((body ++ '"' :: suf).drop body.length) =
      [(1, [])] := by
    rw [dropLen_append]
    rfl
  have step1 : mAll pQuotedSql ('"' :: (body ++ '"' :: suf)) =
      (mAll (.seq (.grp 1 (.rep 5 0 true)) (.lit false ['"'])) (body ++ '"' :: suf)).map
        (fun q => (1 + q.1, ([] : Caps) ++ q.2)) ++ [] := rfl
  have step2 : mAll (.seq (.grp 1 (.rep 5 0 true)) (.lit false ['"'])) (body ++ '"' :: suf) =
      (((descRange 0 (runLen (clsF 5) (body ++ '"' :: suf))).map
          (fun n => (n, ([] : Caps)))).map
        (fun p => (p.1, p.2 ++ [(1, (body ++ '"' :: suf).take p.1)]))).flatMap
        (fun p => (mAll (.lit false ['"']) ((body ++ '"' :: suf).drop p.1)).map
          (fun q => (p.1 + q.1, p.2 ++ q.2))) := rfl
  have hinner : mAll (.seq (.grp 1 (.rep 5 0 true)) (.lit false ['"'])) (body ++ '"' :: suf) =
      [(body.length + 1, [(1, body)])] := by
    rw [step2, hrun, List.map_map, List.flatMap_map]
    rw [flatMap_single _ _ body.length (descRange_zero_head body.length) ?tail]
    case tail =>
      intro n hn
      have hlt := descRange_zero_tail_lt body.length n hn
      simp only [Function.comp_apply]
      rw [hlitL n hlt]
      rfl
    simp only [Function.comp_apply]
    rw [hlitE, takeLen_append]
    rfl
  rw [step1, hinner]
  simp only [List.map_cons, List.map_nil, List.append_nil, List.nil_append]
  have h2 : 1 + (body.length + 1) = body.length + 2 := by omega
  rw [h2]

theorem mAll_quoted_nomatch (c : Char) (cs : List Char) (hc : c ≠ '"') :
    mAll pQuotedSql (c :: cs) = [] := by
  have hlit : mAll (.lit false ['"']) (c :: cs) = [] := by
    simp [mAll, hc]
  show (mAll (.lit false ['"']) (c :: cs)).flatMap
      (fun p => (mAll (.seq (.grp 1 (.rep 5 0 true)) (.lit false ['"'])) ((c :: cs).drop p.1)).map
        (fun q => (p.1 + q.1, p.2 ++ q.2))) = []
  rw [hlit]
  rfl

theorem reSearchGo_quoted : ∀ (pre : List Char), (∀ c ∈ pre, c ≠ '"') →
    ∀ (body suf : List Char), ('"' : Char) ∉ body → ∀ (st : Nat),
    reSearchGo pQuotedSql st (pre ++ '"' :: (body ++ '"' :: suf)) =
      some (st + pre.length, body.length + 2, [(1, body)])
  | [], _, body, suf, hb, st => by
    rw [show ([] : List Char) ++ '"' :: (body ++ '"' :: suf) =
      '"' :: (body ++ '"' :: suf) from rfl]
    show (match mAll pQuotedSql ('"' :: (body ++ '"' :: suf)) with
      | p :: _ => some (st, p.1, p.2)
      | [] => reSearchGo pQuotedSql (st + 1) (body ++ '"' :: suf)) =
      some (st + ([] : List Char).length, body.length + 2, [(1, body)])
    rw [mAll_quoted body suf hb]
    simp
  | c :: pre, hpre, body, suf, hb, st => by
    rw [List.cons_append]
    show (match mAll pQuotedSql (c :: (pre ++ '"' :: (body ++ '"' :: suf))) with
      | p :: _ => some (st, p.1, p.2)
      | [] => reSearchGo pQuotedSql (st + 1) (pre ++ '"' :: (body ++ '"' :: suf))) =
      some (st + (c :: pre).length, body.length + 2, [(1, body)])
    rw [mAll_quoted_nomatch c _ (hpre c (List.mem_cons_self c pre))]
    rw [reSearchGo_quoted pre (fun d hd => hpre d (List.mem_cons_of_mem c hd)) body suf hb (st + 1)]
    have h : st + 1 + pre.length = st + (c :: pre).length := by
      simp only [List.length_cons]
      omega
    rw [h]

theorem reSearch_quoted (pre body suf : List Char) (hpre : ∀ c ∈ pre, c ≠ '"')
    (hb : ('"' : Char) ∉ body) :
    reSearch pQuotedSql (pre ++ '"' :: (body ++ '"' :: suf)) =
      some (pre.length, body.length + 2, [(1, body)]) := by
  unfold reSearch
  rw [reSearchGo_quoted pre hpre body suf hb 0]
  simp

theorem isPrefixOfCL_self_append : ∀ (l t : List Char), isPrefixOfCL l (l ++ t) = true
  | [], _ => rfl
  | c :: l, t => by
    show (decide (c = c) && isPrefixOfCL l (l ++ t)) = true
    rw [isPrefixOfCL_self_append l t]
    simp

theorem findSub_quoted : ∀ (pre : List Char), (∀ c ∈ pre, c ≠ '"') →
    ∀ (body suf : List Char),
    findSubCL ('"' :: (body ++ ['"'])) (pre ++ '"' :: (body ++ '"' :: suf)) =
      some pre.length
  | [], _, body, suf => by
    have hp : isPrefixOfCL ('"' :: (body ++ ['"'])) ([] ++ '"' :: (body ++ '"' :: suf)) = true := by
      have : ([] : List Char) ++ '"' :: (body ++ '"' :: suf) =
          ('"' :: (body ++ ['"'])) ++ suf := by simp
      rw [this]
      exact isPrefixOfCL_self_append _ _
    cases hx : ([] : List Char) ++ '"' :: (body ++ '"' :: suf) with
    | nil => simp at hx
    | cons a t =>
      rw [← hx]
      rw [show ([] : List Char) ++ '"' :: (body ++ '"' :: suf) =
        '"' :: (body ++ '"' :: suf) from rfl]
      unfold findSubCL
      rw [show ('"' : Char) :: (body ++ '"' :: suf) =
        ([] : List Char) ++ '"' :: (body ++ '"' :: suf) from rfl, hp]
      rfl
  | c :: pre, hpre, body, suf => by
    have hc : c ≠ '"' := hpre c (List.mem_cons_self c pre)
    rw [List.cons_append]
    unfold findSubCL
    have hnp : isPrefixOfCL ('"' :: (body ++ ['"']))
        (c :: (pre ++ '"' :: (body ++ '"' :: suf))) = false := by
      simp only [isPrefixOfCL]
      have : (('"' : Char) = c) = False := by
        simp [Ne.symm hc]
      simp [this]
    rw [hnp]
    simp only [Bool.false_eq_true, if_false]
    rw [findSub_quoted pre (fun d hd => hpre d (List.mem_cons_of_mem c hd)) body suf]
    rfl

/-- The quoted case of the flag/SQL separation (claim C4): with a
double-quoted substring present, the text before it (stripped, then
shell-tokenized) gives the flags and the quoted substring (with quotes)
is taken as the SQL. -/
theorem bqFlagsSql_quoted (pre body suf : List Char) (flags : List String)
    (hpre : ∀ c ∈ pre, c ≠ '"') (hb : ('"' : Char) ∉ body)
    (hsh : shlexSplit ⟨stripChars pre⟩ = .ok flags) :
    bqFlagsSql ⟨pre ++ '"' :: (body ++ '"' :: suf)⟩ =
      .ok (flags, ⟨'"' :: (body ++ ['"'])⟩) := by
  unfold bqFlagsSql
  rw [show (String.mk (pre ++ '"' :: (body ++ '"' :: suf))).data =
    pre ++ '"' :: (body ++ '"' :: suf) from rfl]
  rw [reSearch_quoted pre body suf hpre hb]
  have hsql : (( pre ++ '"' :: (body ++ '"' :: suf)).drop pre.length).take (body.length + 2) =
      '"' :: (body ++ ['"']) := by
    rw [dropLen_append]
    rw [show ('"' :: (body ++ '"' :: suf)).take (body.length + 2) =
      '"' :: ((body ++ '"' :: suf).take (body.length + 1)) from rfl]
    rw [takeLenPlus_append body 1 ('"' :: suf)]
    rfl
  simp only [hsql]
  rw [findSub_quoted pre hpre body suf]
  simp only [Option.getD_some]
  rw [takeLen_append]
  by_cases hne : stripChars pre ≠ []
  · rw [if_pos hne, hsh]
  · rw [if_neg hne]
    have hnil : stripChars pre = [] := by
      by_contra hcon
      exact hne hcon
    rw [hnil] at hsh
    have : flags = [] := by
      have : (Except.ok ([] : List String) : Except String (List String)) = .ok flags := hsh
      cases this
      rfl
    rw [this]

/-! ### Lemmas for the idempotence claim: shlex round-trips plain tokens -/

theorem plainChar_split (c : Char) (h : plainChar c = true) :
    pyIsSpace c = false ∧ ¬(c = '"') ∧ ¬(c = '\\') ∧ ¬(c = Char.ofNat 39) := by
  simp only [plainChar, Bool.and_eq_true, Bool.not_eq_true', decide_eq_false_iff_not] at h
  exact ⟨h.1.1.1, h.1.1.2, h.1.2, h.2⟩

theorem plainTok_split (f : String) (h : plainTok f = true) :
    f.data ≠ [] ∧ ∀ c ∈ f.data, plainChar c = true := by
  simp only [plainTok, Bool.and_eq_true, Bool.not_eq_true', decide_eq_false_iff_not,
    List.all_eq_true] at h
  refine ⟨?_, h.2⟩
  intro hd
  apply h.1
  cases f with
  | mk d =>
    show String.mk d = ""
    have hdd : d = [] := hd
    rw [hdd]

theorem shlexGo_plain_chunk : ∀ (t : List Char), (∀ c ∈ t, plainChar c = true) →
    ∀ (rest : List Char) (tok : List Char) (sawQ : Bool) (acc : List String),
    shlexGo (t ++ rest) .norm tok sawQ acc = shlexGo rest .norm (tok ++ t) sawQ acc
  | [], _, rest, tok, sawQ, acc => by simp
  | c :: t, h, rest, tok, sawQ, acc => by
    obtain ⟨h1, h2, h3, h4⟩ := plainChar_split c (h c (List.mem_cons_self c t))
    rw [List.cons_append]
    conv_lhs => unfold shlexGo
    rw [h1]
    simp only [Bool.false_eq_true, if_false, if_neg h3, if_neg h4, if_neg h2]
    rw [shlexGo_plain_chunk t (fun d hd => h d (List.mem_cons_of_mem c hd)) rest
      (tok ++ [c]) sawQ acc, List.append_assoc]
    rfl

theorem shlex_join_plain : ∀ (fs : List String), fs ≠ [] →
    (∀ f ∈ fs, plainTok f = true) → ∀ (acc : List String),
    shlexGo (joinSep " " fs).data .norm [] false acc = .ok (acc ++ fs)
  | [], hne, _, _ => absurd rfl hne
  | [f], _, hpl, acc => by
    obtain ⟨hfd, hfp⟩ := plainTok_split f (hpl f (List.mem_cons_self f []))
    rw [show (joinSep " " [f]).data = f.data ++ [] from by simp [joinSep]]
    rw [shlexGo_plain_chunk f.data hfp [] [] false acc]
    show Except.ok (acc ++ if ([] ++ f.data ≠ [] || false) = true then [⟨[] ++ f.data⟩] else []) =
      .ok (acc ++ [f])
    simp [hfd]
  | f :: g :: t, _, hpl, acc => by
    obtain ⟨hfd, hfp⟩ := plainTok_split f (hpl f (List.mem_cons_self f (g :: t)))
    have hdata : (joinSep " " (f :: g :: t)).data =
        f.data ++ (' ' :: (joinSep " " (g :: t)).data) := by
      show (f ++ " " ++ joinSep " " (g :: t)).data = _
      simp [String.data_append]
    rw [hdata, shlexGo_plain_chunk f.data hfp _ [] false acc]
    show (if pyIsSpace ' ' = true then
        (if ([] ++ f.data ≠ [] || false) = true then
          shlexGo (joinSep " " (g :: t)).data ShMode.norm [] false (acc ++ [⟨[] ++ f.data⟩])
        else shlexGo (joinSep " " (g :: t)).data ShMode.norm [] false acc)
      else if ' ' = '\\' then shlexGo (joinSep " " (g :: t)).data ShMode.esc ([] ++ f.data) false acc
      else if ' ' = Char.ofNat 39 then shlexGo (joinSep " " (g :: t)).data ShMode.squote ([] ++ f.data) true acc
      else if ' ' = '"' then shlexGo (joinSep " " (g :: t)).data ShMode.dquote ([] ++ f.data) true acc
      else shlexGo (joinSep " " (g :: t)).data ShMode.norm (([] ++ f.data) ++ [' ']) false acc) =
      .ok (acc ++ (f :: g :: t))
    have hcond : ([] ++ f.data ≠ [] || false) = true := by simp [hfd]
    rw [if_pos (show pyIsSpace ' ' = true from rfl), if_pos hcond]
    have hj := shlex_join_plain (g :: t) (List.cons_ne_nil g t)
      (fun d hd => hpl d (List.mem_cons_of_mem f hd))
    rw [hj]
    simp

theorem shlexSplit_join_plain (fs : List String) (hne : fs ≠ [])
    (hpl : ∀ f ∈ fs, plainTok f = true) :
    shlexSplit (joinSep " " fs) = .ok fs := by
  unfold shlexSplit
  rw [shlex_join_plain fs hne hpl []]
  simp

theorem getLast?_mem : ∀ (l : List Char) (d : Char), l.getLast? = some d → d ∈ l
  | [], _, h => by cases h
  | [c], d, h => by
    obtain rfl : c = d := by simpa using h
    exact List.mem_cons_self c []
  | c :: e :: t, d, h => by
    have : (e :: t).getLast? = some d := by simpa [List.getLast?] using h
    exact List.mem_cons_of_mem c (getLast?_mem (e :: t) d this)

theorem getLast?_cons_of_ne_nil (a : Char) (l : List Char) (h : l ≠ []) :
    (a :: l).getLast? = l.getLast? := by
  cases l with
  | nil => exact absurd rfl h
  | cons b t => rfl

theorem getLast?_append_right : ∀ (A B : List Char), B ≠ [] →
    (A ++ B).getLast? = B.getLast?
  | [], _, _ => by simp
  | a :: A, B, h => by
    rw [List.cons_append, getLast?_cons_of_ne_nil a (A ++ B) (by
      intro hx
      exact h (List.append_eq_nil.mp hx).2)]
    exact getLast?_append_right A B h

theorem getLast?_ne_nil : ∀ (l : List Char), l ≠ [] → ∃ d, l.getLast? = some d
  | [], hne => absurd rfl hne
  | [c], _ => ⟨c, rfl⟩
  | c :: e :: t, _ => by
    rw [getLast?_cons_of_ne_nil c (e :: t) (List.cons_ne_nil e t)]
    exact getLast?_ne_nil (e :: t) (List.cons_ne_nil e t)

theorem joinSep_head_plain : ∀ (fs : List String), fs ≠ [] →
    (∀ f ∈ fs, plainTok f = true) →
    ∃ c cs, (joinSep " " fs).data = c :: cs ∧ plainChar c = true
  | [], hne, _ => absurd rfl hne
  | [f], _, hpl => by
    obtain ⟨hfd, hfp⟩ := plainTok_split f (hpl f (List.mem_cons_self f []))
    cases hd : f.data with
    | nil => exact absurd hd hfd
    | cons c cs =>
      exact ⟨c, cs, by simp [joinSep, hd], hfp c (hd ▸ List.mem_cons_self c cs)⟩
  | f :: g :: t, _, hpl => by
    obtain ⟨hfd, hfp⟩ := plainTok_split f (hpl f (List.mem_cons_self f (g :: t)))
    cases hd : f.data with
    | nil => exact absurd hd hfd
    | cons c cs =>
      refine ⟨c, cs ++ (' ' :: (joinSep " " (g :: t)).data), ?_,
        hfp c (hd ▸ List.mem_cons_self c cs)⟩
      show (f ++ " " ++ joinSep " " (g :: t)).data = _
      simp [String.data_append, hd]

theorem joinSep_last_plain : ∀ (fs : List String), fs ≠ [] →
    (∀ f ∈ fs, plainTok f = true) →
    ∃ d, (joinSep " " fs).data.getLast? = some d ∧ plainChar d = true
  | [], hne, _ => absurd rfl hne
  | [f], _, hpl => by
    obtain ⟨hfd, hfp⟩ := plainTok_split f (hpl f (List.mem_cons_self f []))
    have hJ : (joinSep " " [f]).data = f.data := by simp [joinSep]
    obtain ⟨d, hd⟩ := getLast?_ne_nil f.data hfd
    exact ⟨d, by rw [hJ, hd], hfp d (getLast?_mem f.data d hd)⟩
  | f :: g :: t, _, hpl => by
    obtain ⟨d, hd, hdp⟩ := joinSep_last_plain (g :: t) (List.cons_ne_nil g t)
      (fun x hx => hpl x (List.mem_cons_of_mem f hx))
    refine ⟨d, ?_, hdp⟩
    have hdata : (joinSep " " (f :: g :: t)).data =
        f.data ++ (' ' :: (joinSep " " (g :: t)).data) := by
      show (f ++ " " ++ joinSep " " (g :: t)).data = _
      simp [String.data_append]
    rw [hdata, getLast?_append_right f.data _ (List.cons_ne_nil _ _),
      getLast?_cons_of_ne_nil ' ' _ ?hne]
    · exact hd
    case hne =>
      intro hx
      rw [hx] at hd
      cases hd

theorem stripChars_sandwich (c : Char) (mid : List Char) (hc : pyIsSpace c = false)
    (hlast : ∀ d, (c :: mid).getLast? = some d → pyIsSpace d = false) :
    stripChars ((c :: mid) ++ [' ']) = c :: mid := by
  unfold stripChars
  rw [show ((c :: mid) ++ [' ']).dropWhile pyIsSpace = (c :: mid) ++ [' '] from by
    simp [List.dropWhile_cons, hc]]
  rw [List.reverse_append]
  rw [show (([' '] : List Char).reverse ++ (c :: mid).reverse) =
    ' ' :: (c :: mid).reverse from by simp]
  rw [show (' ' :: (c :: mid).reverse).dropWhile pyIsSpace =
    (c :: mid).reverse.dropWhile pyIsSpace from by
    rw [List.dropWhile_cons, if_pos (show pyIsSpace ' ' = true from rfl)]]
  cases hrev : (c :: mid).reverse with
  | nil => simp at hrev
  | cons d rev =>
    have hd : (c :: mid).getLast? = some d := by
      rw [← List.head?_reverse, hrev]
      rfl
    have hds := hlast d hd
    rw [show (d :: rev).dropWhile pyIsSpace = d :: rev from by
      simp [List.dropWhile_cons, hds]]
    rw [← hrev, List.reverse_reverse]

theorem stripChars_join_space (fs : List String) (hne : fs ≠ [])
    (hpl : ∀ f ∈ fs, plainTok f = true) :
    stripChars ((joinSep " " fs).data ++ [' ']) = (joinSep " " fs).data := by
  obtain ⟨c, cs, hJ, hcp⟩ := joinSep_head_plain fs hne hpl
  obtain ⟨d, hd, hdp⟩ := joinSep_last_plain fs hne hpl
  rw [hJ] at hd ⊢
  refine stripChars_sandwich c cs (plainChar_split c hcp).1 ?_
  intro e he
  have : e = d := by
    rw [hd] at he
    exact (Option.some.inj he).symm
  rw [this]
  exact (plainChar_split d hdp).1

theorem joinSep_mem_plain : ∀ (fs : List String), (∀ f ∈ fs, plainTok f = true) →
    ∀ c ∈ (joinSep " " fs).data, plainChar c = true ∨ c = ' '
  | [], _, c, hc => by simp [joinSep] at hc
  | [f], hpl, c, hc => by
    rw [show (joinSep " " [f]).data = f.data from by simp [joinSep]] at hc
    exact Or.inl ((plainTok_split f (hpl f (List.mem_cons_self f []))).2 c hc)
  | f :: g :: t, hpl, c, hc => by
    rw [show (joinSep " " (f :: g :: t)).data =
      f.data ++ (' ' :: (joinSep " " (g :: t)).data) from by
        show (f ++ " " ++ joinSep " " (g :: t)).data = _
        simp [String.data_append]] at hc
    rcases List.mem_append.mp hc with hf | hrest
    · exact Or.inl ((plainTok_split f (hpl f (List.mem_cons_self f (g :: t)))).2 c hf)
    · rcases List.mem_cons.mp hrest with hsp | hJ
      · exact Or.inr hsp
      · exact joinSep_mem_plain (g :: t)
          (fun x hx => hpl x (List.mem_cons_of_mem f hx)) c hJ

theorem pySplitMax2_bq (c : Char) (cs : List Char) (hc : pyIsSpace c = false) :
    pySplitMax2CL (("bq query ").data ++ (c :: cs)) =
      [("bq").data, ("query").data, c :: cs] := by
  show (if (c :: cs).dropWhile pyIsSpace = ([] : List Char) then
      [("bq").data, ("query").data]
    else [("bq").data, ("query").data, (c :: cs).dropWhile pyIsSpace]) =
    [("bq").data, ("query").data, c :: cs]
  rw [show (c :: cs).dropWhile pyIsSpace = c :: cs from by
    simp [List.dropWhile_cons, hc]]
  simp

theorem stripQuotesTok_quoted (body : List Char) :
    stripQuotesTok ⟨'"' :: (body ++ ['"'])⟩ = ⟨body⟩ := by
  have h1 : pyStartsWith ⟨'"' :: (body ++ ['"'])⟩ "\"" = true := rfl
  have h2 : pyEndsWith ⟨'"' :: (body ++ ['"'])⟩ "\"" = true := by
    show isPrefixOfCL ['"'] ('"' :: (body ++ ['"'])).reverse = true
    rw [List.reverse_cons, List.reverse_append]
    rfl
  unfold stripQuotesTok
  rw [h1, h2]
  show (⟨(body ++ ['"']).take (('"' :: (body ++ ['"'])).length - 2)⟩ : String) = ⟨body⟩
  have h3 : ('"' :: (body ++ ['"'])).length - 2 = body.length := by
    simp [List.length_cons, List.length_append]
  rw [h3, takeLen_append]

theorem allSome_map_some_concat : ∀ (l : List String) (b : String),
    allSome (l.map some ++ [some b]) = some (l ++ [b])
  | [], b => rfl
  | a :: l, b => by
    show (allSome (l.map some ++ [some b])).map (a :: ·) = some (a :: (l ++ [b]))
    rw [allSome_map_some_concat l b]
    rfl

theorem vectorFlagsBody_canon (bp : Arg) (flags : List String) (body : String) :
    vectorFlagsBody ((bp :: some "query" :: flags.map some) ++ [some body]) =
      some (flags, body) := by
  show (match allSome (flags.map some ++ [some body]) with
    | some toks =>
      match toks.getLast? with
      | some b2 => some (toks.dropLast, b2)
      | Option.none => Option.none
    | Option.none => Option.none) = some (flags, body)
  rw [allSome_map_some_concat flags body]
  simp [List.getLast?_concat, List.dropLast_concat]

/-- The loop condition of line 109 agrees with claim C6's reading:
"not itself a flag, and the predecessor is not an unterminated flag". -/
theorem flagCondEquiv (prev : Option String) (p : String) :
    (!(pyStartsWith p "--") &&
      (match prev with
       | Option.none => true
       | some q => containsChar q '=' || !(pyStartsWith q "--"))) =
    (notFlagTok p &&
      !(match prev with
        | some q => unterminatedFlag q
        | Option.none => false)) := by
  cases prev with
  | none => rfl
  | some q =>
    simp only [notFlagTok, unterminatedFlag]
    cases pyStartsWith q "--" <;> cases containsChar q '=' <;> rfl

theorem flagBoundaryGo_eq (t : List String) : ∀ (prev : Option String) (i : Nat),
    flagBoundaryGo prev i t =
      ((prev :: t.map some).zip t).findIdx? (fun pq =>
        notFlagTok pq.2 &&
          !(match pq.1 with
            | some q => unterminatedFlag q
            | Option.none => false)) i := by
  induction t with
  | nil => intro prev i; rfl
  | cons p rest ih =>
    intro prev i
    simp only [List.map_cons, List.zip_cons_cons, List.findIdx?_cons]
    show (if (!(pyStartsWith p "--") &&
        (match prev with
         | Option.none => true
         | some q => containsChar q '=' || !(pyStartsWith q "--"))) = true
      then some i else flagBoundaryGo (some p) (i + 1) rest) = _
    rw [flagCondEquiv prev p]
    by_cases h : (notFlagTok p &&
        !(match prev with
          | some q => unterminatedFlag q
          | Option.none => false)) = true
    · rw [if_pos h, if_pos h]
    · rw [if_neg h, if_neg h]
      exact ih (some p) (i + 1)

theorem flagEndIdx_eq_claimBoundary (parts : List String) :
    flagEndIdx parts = claimBoundary parts := by
  unfold flagEndIdx claimBoundary withPred
  exact flagBoundaryGo_eq parts Option.none 0

theorem handleGcloudCommand_snd (w : World) (gp : Arg) (cmd : String)
    (toks : List String) (hs : shlexSplit ⟨cmd.data.drop 7⟩ = .ok toks) :
    (handleGcloudCommand w gp cmd).snd =
      [if toks.any (fun a => pyStartsWith a "--format") then gp :: toks.map some
       else gp :: (toks ++ ["--format=json"]).map some] := by
  simp only [handleGcloudCommand, hs]
  rw [executeSubprocess_snd]

theorem handleBigqueryCommand_snd (w : World) (bp : Arg) (cmd : String)
    (toks : List String) (hs : shlexSplit ⟨cmd.data.drop 3⟩ = .ok toks) :
    (handleBigqueryCommand w bp cmd).snd =
      [if toks.any (fun a => pyStartsWith a "--format") then bp :: toks.map some
       else bp :: (toks ++ ["--format=json"]).map some] := by
  simp only [handleBigqueryCommand, hs]
  rw [executeSubprocess_snd]

theorem formatAny_path_query (bp : String) (hbp : pyStartsWith bp "--format" = false)
    (l : List String) :
    formatAny ((some bp : Arg) :: some "query" :: l.map some) = .ok (l.any fmtS) := by
  have hq : pyStartsWith "query" "--format" = false := by decide
  simp only [formatAny, hbp, hq, Bool.false_eq_true, if_false, formatAny_map_some]

/-! ### Claim theorems -/

/-- C1, counterexample: when the caller supplies a `--format` token twice,
`handle_gcloud_command` keeps both (the `any` check only suppresses the
appended default), so the final vector carries two `--format` tokens, not
exactly one. -/
theorem c1_counterexample :
    (handleGcloudCommand wBase (some "gcloud")
        "gcloud projects list --format=json --format=yaml").snd =
      [[some "gcloud", some "projects", some "list", some "--format=json",
        some "--format=yaml"]] ∧
    List.countP fmtTok [some "gcloud", some "projects", some "list",
        some "--format=json", some "--format=yaml"] = 2 ∧
    ¬ List.countP fmtTok [some "gcloud", some "projects", some "list",
        some "--format=json", some "--format=yaml"] = 1 :=
  ⟨rfl, rfl, by decide⟩

/-- C1, amended: the vector built by each handler contains at least one
`--format` token; exactly one — the appended `--format=json` — when the
caller supplied none, and exactly the caller's count (which may exceed
one) otherwise.  For `handle_bigquery_query` the count is over the vector
before the appended SQL body. -/
theorem c1_amended (w : World) (gp bp : String)
    (hgp : pyStartsWith gp "--format" = false)
    (hbp : pyStartsWith bp "--format" = false) :
    (∀ cmd toks, shlexSplit ⟨cmd.data.drop 7⟩ = .ok toks →
      ((handleGcloudCommand w (some gp) cmd).snd.headD []).countP fmtTok =
        if toks.countP fmtS = 0 then 1 else toks.countP fmtS) ∧
    (∀ cmd toks, shlexSplit ⟨cmd.data.drop 3⟩ = .ok toks →
      ((handleBigqueryCommand w (some bp) cmd).snd.headD []).countP fmtTok =
        if toks.countP fmtS = 0 then 1 else toks.countP fmtS) ∧
    (∀ (cmd : String) (t1 t2 r : List Char) (flags : List String) (sqlq : String),
      pySplitMax2CL cmd.data = [t1, t2, r] →
      bqFlagsSql ⟨r⟩ = .ok (flags, sqlq) →
      bqQueryBuild (some bp) cmd = .ok (.vector
        ((if flags.countP fmtS = 0 then
            ((some bp : Arg) :: some "query" :: flags.map some) ++ [some "--format=json"]
          else (some bp : Arg) :: some "query" :: flags.map some) ++
          [some (backtickFix (stripQuotesTok sqlq))])) ∧
      (if flags.countP fmtS = 0 then
          ((some bp : Arg) :: some "query" :: flags.map some) ++ [some "--format=json"]
        else (some bp : Arg) :: some "query" :: flags.map some).countP fmtTok =
        if flags.countP fmtS = 0 then 1 else flags.countP fmtS) := by
  have hq : fmtTok (some "query") = false := by decide
  have hone : List.countP fmtTok [some "--format=json"] = 1 := by decide
  refine ⟨?_, ?_, ?_⟩
  · intro cmd toks hs
    rw [handleGcloudCommand_snd w (some gp) cmd toks hs]
    simp only [List.headD_cons]
    exact genericHandlerCount gp hgp toks
  · intro cmd toks hs
    rw [handleBigqueryCommand_snd w (some bp) cmd toks hs]
    simp only [List.headD_cons]
    exact genericHandlerCount bp hbp toks
  · intro cmd t1 t2 r flags sqlq hsp hfs
    have e1 : bqQueryBuild (some bp) cmd =
        (match bqFlagsSql ⟨r⟩ with
         | .error m => .error m
         | .ok (flags, sql) =>
           match formatAny ((some bp : Arg) :: some "query" :: flags.map some) with
           | .error m => .error m
           | .ok hasFmt =>
             .ok (.vector
               ((if hasFmt then (some bp : Arg) :: some "query" :: flags.map some
                 else ((some bp : Arg) :: some "query" :: flags.map some) ++
                   [some "--format=json"]) ++
                [some (backtickFix (stripQuotesTok sql))]))) := by
      unfold bqQueryBuild
      rw [hsp]
      rfl
    have hpre : (if flags.any fmtS then (some bp : Arg) :: some "query" :: flags.map some
        else ((some bp : Arg) :: some "query" :: flags.map some) ++ [some "--format=json"]) =
        (if flags.countP fmtS = 0 then
            ((some bp : Arg) :: some "query" :: flags.map some) ++ [some "--format=json"]
          else (some bp : Arg) :: some "query" :: flags.map some) := by
      by_cases hany : flags.any fmtS = true
      · rw [if_pos hany, if_neg (countP_ne_zero_of_any_true hany)]
      · have hf : flags.any fmtS = false := by
          cases h : flags.any fmtS
          · rfl
          · exact absurd h hany
        rw [hf, if_pos (countP_zero_of_any_false hf)]
        simp
    constructor
    · simp only [e1, hfs, formatAny_path_query bp hbp flags]
      rw [hpre]
    · have hbp2 : fmtTok (some bp) = false := hbp
      by_cases hz : flags.countP fmtS = 0
      · rw [if_pos hz, if_pos hz, List.countP_append, List.countP_cons,
          List.countP_cons, countP_map_some_fmt, hbp2, hq, hz, hone]
        simp
      · rw [if_neg hz, if_neg hz, List.countP_cons, List.countP_cons,
          countP_map_some_fmt, hbp2, hq]
        simp

/-- C1, witness for the amended theorem: a command with no caller format
token gets exactly one `--format` token. -/
theorem c1_amended_witness :
    ((handleGcloudCommand wBase (some "gcloud") "gcloud projects list").snd.headD []).countP
      fmtTok = 1 := by
  have h := (c1_amended wBase "gcloud" "bq" (by decide) (by decide)).1
    "gcloud projects list" ["projects", "list"] rfl
  have h2 : (if List.countP fmtS ["projects", "list"] = 0 then 1
      else List.countP fmtS ["projects", "list"]) = 1 := by decide
  exact h.trans h2

/-- C2: the claim says every failure mode, including a subprocess launch
failure when the resolved tool path is absent or unset, is caught and
converted into the unified error dictionary.  The code is wrong: the
`except` clauses catch only `subprocess.CalledProcessError`, so with the
path environment variables unset (`wNoEnv`, a `TypeError` from
`subprocess.run`) or pointing to a missing file (`wBadPath`, a
`FileNotFoundError`), `execute_gcloud_command` and `gcp_tool` let the
exception escape instead of returning a status dictionary. -/
theorem c2_launch_failure_escapes :
    (executeGcloudCommand wNoEnv "gcloud projects list").fst = .error typeErrMsg ∧
    (gcpTool wNoEnv "gcloud projects list").fst = .error typeErrMsg ∧
    (executeGcloudCommand wBadPath "gcloud projects list").fst = .error fnfMsg ∧
    (gcpTool wBadPath "gcloud projects list").fst = .error fnfMsg :=
  ⟨rfl, rfl, rfl, rfl⟩

/-- C3, counterexample: on the query `list projects` with a failing
executor, `gcp_tool` returns the raw execution result
`(status error, error_message, exit_code)`, which is neither of the two
claimed tool-response shapes (no `suggested_commands`, an extra
`exit_code`). -/
theorem c3_counterexample :
    (gcpTool wFailBoom "list projects").fst =
      .ok [("status", .str "error"), ("error_message", .str "boom"),
           ("exit_code", .int 1)] ∧
    isToolShape [("status", .str "error"), ("error_message", .str "boom"),
           ("exit_code", .int 1)] = false ∧
    dget [("status", .str "error"), ("error_message", .str "boom"),
           ("exit_code", .int 1)] "suggested_commands" = Option.none :=
  ⟨rfl, rfl, rfl⟩

/-- C3, amended: for every query matching no intent rule (and not
command-prefixed), `gcp_tool` returns the fallback error of the claimed
shape, carrying the verbatim query text in its error message together
with the suggestion list; and every value the direct-command path
returns (whenever it does not raise) also has one of the two claimed
shapes.  The two-shape property fails only on the natural-language
intent paths (see the counterexample). -/
theorem c3_amended (w : World) (q : String)
    (h1 : pyStartsWith q "gcloud " = false) (h2 : pyStartsWith q "bq " = false)
    (h3 : matchesSomeIntent q = false) :
    gcpTool w q = (.ok (noMatchDict q), []) ∧
    isToolShape (noMatchDict q) = true ∧
    dget (noMatchDict q) "error_message" = some (.str (noMatchMsg q)) ∧
    dget (noMatchDict q) "suggested_commands" =
      some (.str (getSuggestedCommands q)) ∧
    (∀ (w2 : World) (q2 : String) (d : PyDict),
      pyStartsWith q2 "gcloud " = true ∨ pyStartsWith q2 "bq " = true →
      (gcpTool w2 q2).fst = .ok d → isToolShape d = true) := by
  refine ⟨?_, rfl, rfl, rfl,
    fun w2 q2 d hpre hok => gcpTool_direct_shape w2 q2 d hpre hok⟩
  rw [gcpTool_eq]
  simp only [matchesSomeIntent, Bool.or_eq_false_iff] at h3
  obtain ⟨⟨⟨⟨⟨⟨⟨⟨⟨⟨⟨m1, m2⟩, m3⟩, m4⟩, m5⟩, m6⟩, m7⟩, m8⟩, m9⟩, m10⟩, m11⟩, m12⟩ := h3
  simp [gcpToolGo, h1, h2, m1, m2, m3, m4, m5, m6, m7, m8, m9, m10, m11, m12]

/-- C3, witness for the amended theorem: the fallback conjunct at the
unmatched query `asdkjasd`, and the direct-path shape conjunct at the
command `gcloud projects list`, both in the benign world. -/
theorem c3_amended_witness :
    gcpTool wBase "asdkjasd" = (.ok (noMatchDict "asdkjasd"), []) ∧
    isToolShape [("status", PyVal.str "success"),
      ("report", PyVal.str "Command executed successfully:\n")] = true :=
  ⟨(c3_amended wBase "asdkjasd" rfl rfl (by decide)).1,
   (c3_amended wBase "asdkjasd" rfl rfl (by decide)).2.2.2.2 wBase
     "gcloud projects list"
     [("status", PyVal.str "success"),
      ("report", PyVal.str "Command executed successfully:\n")]
     (Or.inl rfl) rfl⟩

/-- C4: with a double-quoted substring in the remainder, the text before
it (shell-tokenized) becomes the flags and the quoted substring becomes
the SQL (quotes kept at the split stage, stripped before appending); in
particular the claim's example yields flags `["--dataset=ds"]` and a
final vector ending with the unquoted, backtick-preserved body. -/
theorem c4_quoted_extraction :
    (∀ (pre body suf : List Char) (flags : List String),
      (∀ c ∈ pre, c ≠ '"') → ('"' : Char) ∉ body →
      shlexSplit ⟨stripChars pre⟩ = .ok flags →
      bqFlagsSql ⟨pre ++ '"' :: (body ++ '"' :: suf)⟩ =
        .ok (flags, ⟨'"' :: (body ++ ['"'])⟩)) ∧
    bqQueryBuild (some "bq") "bq query --dataset=ds \"SELECT * FROM `p.d.t`\"" =
      .ok (.vector [some "bq", some "query", some "--dataset=ds", some "--format=json",
        some "SELECT * FROM `p.d.t`"]) ∧
    [some "bq", some "query", some "--dataset=ds", some "--format=json",
        (some "SELECT * FROM `p.d.t`" : Arg)].getLast? =
      some (some "SELECT * FROM `p.d.t`") :=
  ⟨bqFlagsSql_quoted, rfl, rfl⟩

/-- C4, witness: the general quoted-split conjunct at a concrete remainder. -/
theorem c4_quoted_extraction_witness :
    bqFlagsSql ⟨("--dataset=ds ").data ++ '"' :: (("SELECT 1").data ++ '"' :: [])⟩ =
      .ok (["--dataset=ds"], ⟨'"' :: (("SELECT 1").data ++ ['"'])⟩) :=
  c4_quoted_extraction.1 ("--dataset=ds ").data ("SELECT 1").data [] ["--dataset=ds"]
    (by decide) (by decide) rfl

/-- C5: backtick auto-insertion.  A body already containing a backtick is
left unchanged (no double-wrapping); the claim's example body gets its
dotted table reference after FROM wrapped in backticks end to end through
the bq-query handler; an already-backticked body passes through the
handler unchanged; and every FROM-occurrence is substituted once, as on
the two-occurrence example. -/
theorem c5_backtick_insertion :
    (∀ s : String, s.data.contains btChar = true → backtickFix s = s) ∧
    bqQueryBuild (some "bq") "bq query \"SELECT * FROM proj-1.dataset.table\"" =
      .ok (.vector [some "bq", some "query", some "--format=json",
        some "SELECT * FROM `proj-1.dataset.table`"]) ∧
    bqQueryBuild (some "bq") "bq query \"SELECT * FROM `proj-1.dataset.table`\"" =
      .ok (.vector [some "bq", some "query", some "--format=json",
        some "SELECT * FROM `proj-1.dataset.table`"]) ∧
    backtickFix "SELECT * FROM a.b.c, (SELECT 1 FROM d-1.e.f)" =
      "SELECT * FROM `a.b.c`, (SELECT 1 FROM `d-1.e.f`)" :=
  ⟨backtickFix_of_contains, rfl, rfl, rfl⟩

/-- C5, witness: the no-double-wrapping conjunct applied at a concrete
already-backticked body. -/
theorem c5_backtick_insertion_witness :
    backtickFix "SELECT * FROM `p.d.t`" = "SELECT * FROM `p.d.t`" :=
  c5_backtick_insertion.1 _ rfl

/-- C6: in the no-quotes case the remainder is shell-tokenized and split at
the first token that is not itself a flag and whose predecessor is not an
unterminated flag (a `--` token without `=`): tokens before the boundary
are the flags, tokens from it on — rejoined with single spaces — are the
body; with no boundary, the whole raw remainder is the body and the flag
list is empty. -/
theorem c6_noquote_split :
    (∀ parts, flagEndIdx parts = claimBoundary parts) ∧
    (∀ (rest : String) (parts : List String),
      reSearch pQuotedSql rest.data = Option.none →
      shlexSplit rest = .ok parts →
      bqFlagsSql rest = .ok (match claimBoundary parts with
        | some i => (parts.take i, joinSep " " (parts.drop i))
        | Option.none => ([], rest))) := by
  refine ⟨flagEndIdx_eq_claimBoundary, ?_⟩
  intro rest parts hq hs
  unfold bqFlagsSql
  simp only [hq, hs, flagEndIdx_eq_claimBoundary]
  cases claimBoundary parts <;> rfl

/-- C6, witness: the split at a concrete flagged command remainder. -/
theorem c6_noquote_split_witness :
    bqFlagsSql "--max_rows=10 SELECT 1" = .ok (["--max_rows=10"], "SELECT 1") :=
  c6_noquote_split.2 "--max_rows=10 SELECT 1" ["--max_rows=10", "SELECT", "1"] rfl rfl

/-- C7: running the router's normalization on an already-fully-flagged,
already-backticked bq-query command string changes nothing: the built
vector is exactly `[bq_path, "query", *flags, body]` — no second format
flag is appended, no backtick is inserted, and the body is byte-identical
— and reading flags and body back out of the vector returns the inputs,
so re-running the router on the (unchanged) rebuilt command string
reproduces the identical vector. -/
theorem c7_idempotence (bp : String) (hbp : pyStartsWith bp "--format" = false)
    (flags : List String) (body : String)
    (hne : flags ≠ [])
    (hpl : ∀ f ∈ flags, plainTok f = true)
    (hfmt : ∃ f ∈ flags, pyStartsWith f "--format" = true)
    (hbt : body.data.contains btChar = true)
    (hnq : ('"' : Char) ∉ body.data) :
    bqQueryBuild (some bp) (canonBqQuery flags body) =
      .ok (.vector (((some bp : Arg) :: some "query" :: flags.map some) ++ [some body])) ∧
    vectorFlagsBody (((some bp : Arg) :: some "query" :: flags.map some) ++ [some body]) =
      some (flags, body) := by
  refine ⟨?_, vectorFlagsBody_canon (some bp) flags body⟩
  obtain ⟨c, cs, hJ, hcp⟩ := joinSep_head_plain flags hne hpl
  have hdata : (canonBqQuery flags body).data =
      ("bq query ").data ++ (((joinSep " " flags).data ++ [' ']) ++
        ('"' :: (body.data ++ '"' :: []))) := by
    unfold canonBqQuery
    simp [String.data_append]
  have hsp : pySplitMax2CL (canonBqQuery flags body).data =
      [("bq").data, ("query").data,
       ((joinSep " " flags).data ++ [' ']) ++ ('"' :: (body.data ++ '"' :: []))] := by
    rw [hdata]
    rw [show ((joinSep " " flags).data ++ [' ']) ++ ('"' :: (body.data ++ '"' :: [])) =
      c :: (cs ++ ([' '] ++ ('"' :: (body.data ++ '"' :: [])))) from by
        rw [hJ, List.cons_append, List.cons_append, List.append_assoc]]
    rw [pySplitMax2_bq c _ (plainChar_split c hcp).1]
  have e1 : bqQueryBuild (some bp) (canonBqQuery flags body) =
      (match bqFlagsSql ⟨((joinSep " " flags).data ++ [' ']) ++
          ('"' :: (body.data ++ '"' :: []))⟩ with
       | .error m => .error m
       | .ok (flags, sql) =>
         match formatAny ((some bp : Arg) :: some "query" :: flags.map some) with
         | .error m => .error m
         | .ok hasFmt =>
           .ok (.vector
             ((if hasFmt then (some bp : Arg) :: some "query" :: flags.map some
               else ((some bp : Arg) :: some "query" :: flags.map some) ++
                 [some "--format=json"]) ++
              [some (backtickFix (stripQuotesTok sql))]))) := by
    unfold bqQueryBuild
    rw [hsp]
    rfl
  have hpre : ∀ x ∈ (joinSep " " flags).data ++ [' '], x ≠ '"' := by
    intro x hx
    rcases List.mem_append.mp hx with hx1 | hx2
    · rcases joinSep_mem_plain flags hpl x hx1 with hp | hspc
      · exact (plainChar_split x hp).2.1
      · rw [hspc]
        decide
    · have hxs : x = ' ' := by simpa using hx2
      rw [hxs]
      decide
  have hsh : shlexSplit ⟨stripChars ((joinSep " " flags).data ++ [' '])⟩ = .ok flags := by
    rw [stripChars_join_space flags hne hpl]
    show shlexSplit (joinSep " " flags) = .ok flags
    exact shlexSplit_join_plain flags hne hpl
  have hfs := bqFlagsSql_quoted ((joinSep " " flags).data ++ [' ']) body.data []
    flags hpre hnq hsh
  have hany : flags.any fmtS = true := by
    rw [List.any_eq_true]
    obtain ⟨f, hf, hp⟩ := hfmt
    exact ⟨f, hf, hp⟩
  rw [e1]
  simp only [hfs, formatAny_path_query bp hbp flags, hany, if_true]
  rw [stripQuotesTok_quoted body.data]
  rw [backtickFix_of_contains ⟨body.data⟩ hbt]

/-- C7, witness: an already-normalized command passes through unchanged. -/
theorem c7_idempotence_witness :
    bqQueryBuild (some "bq") (canonBqQuery ["--format=json"] "SELECT * FROM `p.d.t`") =
      .ok (.vector [some "bq", some "query", some "--format=json",
        some "SELECT * FROM `p.d.t`"]) := by
  have h := (c7_idempotence "bq" (by decide) ["--format=json"] "SELECT * FROM `p.d.t`"
    (List.cons_ne_nil _ _) (by decide)
    ⟨"--format=json", List.mem_cons_self _ _, by decide⟩ rfl (by decide)).1
  exact h

/-- C8, counterexample: with an empty project list the report of
`gcp_tool` on `list projects` is `No available gcp projects found.` —
the title is lowercased by `_format_list_response`, so it is not the
claimed `No Available GCP projects found.`. -/
theorem c8_counterexample :
    (gcpTool wEmptyList "list projects").fst =
      .ok [("status", .str "success"),
           ("report", .str "No available gcp projects found.")] ∧
    "No available gcp projects found." ≠ "No Available GCP projects found." :=
  ⟨rfl, by decide⟩

/-- C8, amended: for the listing intents rendered through
`_format_list_response` (projects, instances, services, regions, zones,
billing accounts), an empty sequence reports exactly
`"No " ++ title.lower() ++ " found."` — the title lowercased, unlike the
claim's verbatim-title example; the BigQuery datasets and tables
branches bypass that function on empty sequences and report their own
capitalized fixed texts `No BigQuery datasets found<info>.` and
`No tables found in dataset <id><info>.`; non-empty sequences yield the
(unlowercased) title line followed by one formatted line per item. -/
theorem c8_amended :
    (∀ (title : String) (fmt : PyVal → Except String String),
      formatListResponse [] title fmt = .ok ("No " ++ pyLower title ++ " found.")) ∧
    (∀ (items : List PyVal) (title : String) (fmt : PyVal → Except String String)
        (lines : List String), items ≠ [] → mapExcept fmt items = .ok lines →
      formatListResponse items title fmt =
        .ok (title ++ ":\n" ++ joinSep "\n" lines)) ∧
    (gcpTool wEmptyList "list projects").fst =
      .ok [("status", .str "success"),
           ("report", .str ("No " ++ pyLower "Available GCP projects" ++ " found."))] ∧
    (∀ projInfo : String,
      datasetsCont projInfo [("status", .str "success"), ("result", .list [])] =
        .ok [("status", .str "success"),
             ("report", .str ("No BigQuery datasets found" ++ projInfo ++ "."))]) ∧
    (∀ datasetId projInfo : String,
      tablesCont datasetId projInfo [("status", .str "success"), ("result", .list [])] =
        .ok [("status", .str "success"),
             ("report", .str ("No tables found in dataset " ++ datasetId ++
                projInfo ++ "."))]) ∧
    (gcpTool wEmptyList "list bigquery datasets").fst =
      .ok [("status", .str "success"),
           ("report", .str "No BigQuery datasets found.")] ∧
    (gcpTool wEmptyList "list bigquery tables in dataset ds1").fst =
      .ok [("status", .str "success"),
           ("report", .str "No tables found in dataset ds1.")] :=
  ⟨formatListResponse_nil, formatListResponse_cons, rfl,
   fun _ => rfl, fun _ _ => rfl, rfl, rfl⟩

/-- C8, witness: the non-empty conjunct applied at a one-project list. -/
theorem c8_amended_witness :
    formatListResponse [PyVal.dict [("name", .str "demo"), ("projectId", .str "demo-id")]]
      "Available GCP projects" projectFmt =
      .ok ("Available GCP projects" ++ ":\n" ++ joinSep "\n" ["- demo (ID: demo-id)"]) :=
  c8_amended.2.1 [PyVal.dict [("name", .str "demo"), ("projectId", .str "demo-id")]]
    "Available GCP projects" projectFmt ["- demo (ID: demo-id)"]
    (List.cons_ne_nil _ _) rfl

/-- C9: the natural-language phrasing and the literal billing-link command
produce the identical subprocess trace in every world — both funnel into
`execute_gcloud_command` with the same command string — and with the
gcloud path set the common argument vector is the expected one. -/
theorem c9_billing_equivalence (w : World) :
    (gcpTool w "link billing account 123-456 to project myproj").snd =
      (gcpTool w "gcloud billing projects link myproj --billing-account=123-456").snd ∧
    (∀ g, w.env "GCLOUD_PATH" = some g →
      (gcpTool w "link billing account 123-456 to project myproj").snd =
        [[some g, some "billing", some "projects", some "link", some "myproj",
          some "--billing-account=123-456", some "--format=json"]]) := by
  have hNL : (gcpTool w "link billing account 123-456 to project myproj").snd =
      [[w.env "GCLOUD_PATH", some "billing", some "projects", some "link",
        some "myproj", some "--billing-account=123-456", some "--format=json"]] := by
    show (effThen (executeGcloudCommand w
        "gcloud billing projects link myproj --billing-account=123-456")
        (billingCont "123-456" "myproj")).snd = _
    rw [effThen_snd]
    show (executeSubprocess w
        (w.env "GCLOUD_PATH" :: [some "billing", some "projects", some "link",
          some "myproj", some "--billing-account=123-456", some "--format=json"])).snd = _
    rw [executeSubprocess_snd]
  have hLit : (gcpTool w "gcloud billing projects link myproj --billing-account=123-456").snd =
      [[w.env "GCLOUD_PATH", some "billing", some "projects", some "link",
        some "myproj", some "--billing-account=123-456", some "--format=json"]] := by
    show (effThen (executeGcloudCommand w
        "gcloud billing projects link myproj --billing-account=123-456")
        (directCont w "gcloud billing projects link myproj --billing-account=123-456")).snd = _
    rw [effThen_snd]
    show (executeSubprocess w
        (w.env "GCLOUD_PATH" :: [some "billing", some "projects", some "link",
          some "myproj", some "--billing-account=123-456", some "--format=json"])).snd = _
    rw [executeSubprocess_snd]
  refine ⟨hNL.trans hLit.symm, ?_⟩
  intro g hg
  rw [hNL, hg]

/-- C9, witness: the common trace at the benign world with the gcloud path
set to `gcloud`. -/
theorem c9_billing_equivalence_witness :
    (gcpTool wBase "link billing account 123-456 to project myproj").snd =
      [[some "gcloud", some "billing", some "projects", some "link", some "myproj",
        some "--billing-account=123-456", some "--format=json"]] :=
  (c9_billing_equivalence wBase).2 "gcloud" rfl

/-- C10: a query classified as list-buckets (not command-prefixed, not
matching the earlier projects or instances rules) takes the buckets
branch, which bypasses `execute_subprocess`: its result never depends on
the JSON oracles, the fixed vector ends in `--format=gsutil`, exit 0
yields the fixed-header report over the trimmed raw stdout, and a
non-zero exit yields an error dictionary without `suggested_commands`. -/
theorem c10_buckets_branch (w : World) (q : String)
    (h1 : pyStartsWith q "gcloud " = false) (h2 : pyStartsWith q "bq " = false)
    (h3 : condListProjects q = false) (h4 : condListInstances q = false)
    (h5 : condListBuckets q = true) :
    gcpTool w q = bucketsBranch w ∧
    (∀ w2 : World, w2.env = w.env → w2.run = w.run → gcpTool w2 q = gcpTool w q) ∧
    (∀ out errS,
      w.run [(w.env "GCLOUD_PATH").getD defaultGcloudPath, "storage", "ls",
          "--format=gsutil"] = .ok out errS →
      gcpTool w q =
        (.ok [("status", .str "success"),
              ("report", .str ("Here are the available storage buckets:\n" ++ pyStrip out))],
         [[some ((w.env "GCLOUD_PATH").getD defaultGcloudPath), some "storage",
           some "ls", some "--format=gsutil"]])) ∧
    (∀ errS rc,
      w.run [(w.env "GCLOUD_PATH").getD defaultGcloudPath, "storage", "ls",
          "--format=gsutil"] = .fail errS rc →
      gcpTool w q =
        (.ok [("status", .str "error"),
              ("error_message", .str (if errS = "" then
                  strCPE [some ((w.env "GCLOUD_PATH").getD defaultGcloudPath),
                    some "storage", some "ls", some "--format=gsutil"] rc
                else pyStrip errS)),
              ("exit_code", .int rc)],
         [[some ((w.env "GCLOUD_PATH").getD defaultGcloudPath), some "storage",
           some "ls", some "--format=gsutil"]]) ∧
      dget [("status", .str "error"),
            ("error_message", .str (if errS = "" then
                strCPE [some ((w.env "GCLOUD_PATH").getD defaultGcloudPath),
                  some "storage", some "ls", some "--format=gsutil"] rc
              else pyStrip errS)),
            ("exit_code", .int rc)] "suggested_commands" = Option.none) := by
  have hb : gcpTool w q = bucketsBranch w := by
    rw [gcpTool_eq]
    simp [gcpToolGo, h1, h2, h3, h4, h5]
  refine ⟨hb, ?_, ?_, ?_⟩
  · intro w2 he hr
    have hb2 : gcpTool w2 q = bucketsBranch w2 := by
      rw [gcpTool_eq]
      simp [gcpToolGo, h1, h2, h3, h4, h5]
    rw [hb, hb2]
    unfold bucketsBranch
    rw [he, hr]
  · intro out errS hrun
    rw [hb]
    simp only [bucketsBranch]
    rw [hrun]
  · intro errS rc hrun
    refine ⟨?_, rfl⟩
    rw [hb]
    simp only [bucketsBranch]
    rw [hrun]

/-- C10, witness: the success case at the world printing one bucket URL,
on the query `list buckets`. -/
theorem c10_buckets_branch_witness :
    gcpTool wBuckets "list buckets" =
      (.ok [("status", .str "success"),
            ("report", .str "Here are the available storage buckets:\ngs://my-bucket/")],
       [[some "gcloud", some "storage", some "ls", some "--format=gsutil"]]) :=
  (c10_buckets_branch wBuckets "list buckets" rfl rfl rfl rfl rfl).2.2.1
    "gs://my-bucket/\n" "" rfl

end GcpAgent

